import Mathlib

/-!
Verification development for the `listmonk-client` TypeScript repository.

The client wraps a remote mailing-list service behind a typed response
envelope.  We shallowly embed the subscriber-reconciliation core
(`subscribe`, `unsubscribe`, `setSubscriptions`, `addSubscribersToList`,
`syncUsersToList`, `updateUser`, and their helpers) as pure Lean functions.
Remote interaction is modelled by an oracle environment: a function from the
index of the call and the structured request to the response the remote
returns.  Every client operation threads an explicit state that records the
oracle, the number of calls made so far, and the trace of issued requests, so
that theorems can speak about which mutating calls an operation performs.

The repository source (`src/src/listmonk-client.ts`) contains two revisions
of the client.  The current revision implements the resubscribe-capable bulk
add flow; the earlier revision implements the plain bulk add flow in which
entries whose membership is `unsubscribed` are skipped.  Both revisions are
embedded (`addSubscribersToList` and `addSubscribersToListPlain`).
-/

/-- JSON values, used for the `attribs` bag of a subscriber.  Mirrors the
source `JsonValue` union (string, number, boolean, null, array, object). -/
inductive JsonValue where
  | str (s : String)
  | num (n : Int)
  | jbool (b : Bool)
  | null
  | arr (elems : List JsonValue)
  | obj (fields : List (String × JsonValue))

/-- Attribute bags (`LMCSubscriberAttribs`): JS objects with unique keys,
modelled as association lists in insertion order. -/
abbrev Attribs := List (String × JsonValue)

/-- JS object / `Map` assignment: replace the value in place when the key is
already present (keeping its original position), otherwise append. -/
def mapSet {κ α : Type} [DecidableEq κ] (m : List (κ × α)) (k : κ) (v : α) :
    List (κ × α) :=
  if m.any (fun p => p.1 = k) then
    m.map (fun p => if p.1 = k then (k, v) else p)
  else
    m ++ [(k, v)]

/-- JS object / `Map` lookup. -/
def mapGet {κ α : Type} [DecidableEq κ] (m : List (κ × α)) (k : κ) :
    Option α :=
  (m.find? (fun p => p.1 = k)).map (fun p => p.2)

/-- JS `Set.add`: append when not already present (insertion order kept). -/
def setAdd {α : Type} [DecidableEq α] (s : List α) (x : α) : List α :=
  if s.contains x then s else s ++ [x]

/-- `Array.from(new Set(xs))`: deduplicate keeping first occurrences. -/
def setOfList {α : Type} [DecidableEq α] (xs : List α) : List α :=
  xs.foldl setAdd []

/-- JS object spread `{...a, ...b}`: assign every field of `b` over `a`. -/
def attribsMerge (a b : Attribs) : Attribs :=
  b.foldl (fun acc p => mapSet acc p.1 p.2) a

/-- `String.prototype.toLowerCase`, modelled characterwise so that it
evaluates inside the kernel (the library `String.toLower` maps the same
`Char.toLower` over the characters but does not reduce definitionally). -/
def strToLower (s : String) : String := String.mk (s.data.map Char.toLower)

/-- `String.prototype.trim`, modelled characterwise for the same reason. -/
def strTrim (s : String) : String :=
  String.mk (((s.data.dropWhile Char.isWhitespace).reverse.dropWhile
    Char.isWhitespace).reverse)

/-- Truthiness of an optional string in JS (`undefined` and `""` are falsy). -/
def strTruthy : Option String → Bool
  | none => false
  | some s => s != ""

/-- One entry of a subscriber's `lists` array.  Covers both the
`LMCSubscription` and `LMCListRecord` shapes: `subscription_status` and
`name` are optional. -/
structure Subscription where
  id : Int
  subscription_status : Option String
  name : Option String
deriving DecidableEq

/-- A remote subscriber record (`LMCSubscriber`). -/
structure Subscriber where
  id : Int
  uuid : String
  email : String
  name : String
  attribs : Attribs
  status : String
  lists : Option (List Subscription)

/-- Structured remote requests.  Each constructor corresponds to one HTTP
call shape the embedded client issues; the URL/transport encoding is
boilerplate excluded by the spec, so requests are kept structured. -/
inductive RemoteCall where
  /-- `GET /subscribers?per_page=N&query=Q` -/
  | querySubscribers (perPage : Nat) (query : String)
  /-- `GET /subscribers/{id}` -/
  | getSubscriberById (id : Int)
  /-- `POST /subscribers` with the given body fields. -/
  | postSubscriber (email : String) (name : String) (attribs : Attribs)
      (lists : List Int) (preconfirm : Bool) (status : Option String)
  /-- `PUT /subscribers/{id}` with the given body fields (`lists` is present
  only when the caller includes it). -/
  | putSubscriber (id : Int) (email : String) (name : String)
      (attribs : Attribs) (lists : Option (List Int))
  /-- `PUT /subscribers/lists/{listId}` with body `{ids, action: "add"}`. -/
  | putListsPath (listId : Int) (ids : List Int)
  /-- `PUT /subscribers/lists` with body `{ids, action, target_list_ids?}`. -/
  | putLists (ids : List Int) (action : String) (target : Option (List Int))
  /-- `GET /lists?per_page=all` -/
  | getLists

/-- Whether a remote call can change state on the remote service at all. -/
def RemoteCall.isMutation : RemoteCall → Bool
  | .postSubscriber _ _ _ _ _ _ => true
  | .putSubscriber _ _ _ _ _ => true
  | .putListsPath _ _ => true
  | .putLists _ _ _ => true
  | _ => false

/-- Whether a remote call mutates list membership: a bulk membership action,
a path-scoped list add, or a create that immediately attaches lists. -/
def RemoteCall.isMembershipMutation : RemoteCall → Bool
  | .putListsPath _ _ => true
  | .putLists _ _ _ => true
  | .postSubscriber _ _ _ lists _ _ => !lists.isEmpty
  | _ => false

/-- Response payloads, typed by endpoint. -/
inductive Payload where
  | sub (s : Subscriber)
  | page (results : List Subscriber)
  | listRecords (ls : List Subscription)

/-- The normalized remote response envelope (`LMCResponseData` over a raw
payload). -/
structure Resp where
  success : Bool
  code : Int
  message : String
  data : Option Payload

/-- Decode a response's payload as a single subscriber. -/
def Resp.subData (r : Resp) : Option Subscriber :=
  match r.data with
  | some (.sub s) => some s
  | _ => none

/-- Decode a response's payload as a subscriber page (`results` is the only
field of `LMCSubscriberPage` the client reads). -/
def Resp.pageData (r : Resp) : Option (List Subscriber) :=
  match r.data with
  | some (.page rs) => some rs
  | _ => none

/-- Decode a response's payload as list metadata records. -/
def Resp.listData (r : Resp) : Option (List Subscription) :=
  match r.data with
  | some (.listRecords ls) => some ls
  | _ => none

/-- The typed client response envelope `LMCResponse<T>`. -/
structure LMCResp (α : Type) where
  success : Bool
  code : Int
  message : String
  data : Option α

/-- `LMCResponse.ok(data, {code?, message?})` with the defaulting rules of
the source (`code ?? 200`, `message ?? "OK"`). -/
def LMCResp.ok {α : Type} (data : Option α) (code : Option Int)
    (message : Option String) : LMCResp α :=
  { success := true
    code := code.getD 200
    message := message.getD "OK"
    data := data }

/-- `LMCResponse.error(message, {code?, data?})` with the defaulting rules of
the source (`code ?? 500`, data defaults to null). -/
def LMCResp.err {α : Type} (message : String) (code : Option Int)
    (data : Option α) : LMCResp α :=
  { success := false
    code := code.getD 500
    message := message
    data := data }

/-- The TS `return res as unknown as LMCResponse<Other>` cast used to
propagate a failed envelope across result types; the propagated envelopes
carry no data of the source type. -/
def LMCResp.retype {α β : Type} (r : LMCResp α) : LMCResp β :=
  { success := r.success, code := r.code, message := r.message, data := none }

/-- Client-side state threaded through every operation: the response oracle,
the number of remote calls made so far, the trace of issued calls, and the
list-metadata cache together with its configuration (`listCacheSeconds`; `0`
models the unset/disabled configuration) and the current wall-clock value. -/
structure ClientSt where
  env : Nat → RemoteCall → Resp
  count : Nat
  trace : List RemoteCall
  listCacheSeconds : Nat
  listCache : Option (Int × List Subscription)
  now : Int

/-- Issue one remote call: query the oracle, record the call in the trace. -/
def callRemote (c : RemoteCall) (s : ClientSt) : Resp × ClientSt :=
  (s.env s.count c,
    { s with count := s.count + 1, trace := s.trace ++ [c] })

/-- The single-quote character, used by the remote query escaping. -/
def squote : String := String.singleton (Char.ofNat 39)

/-- `value.replace(/'/g, "''")` -/
def escapeValue (value : String) : String :=
  value.replace squote (squote ++ squote)

/-- `buildEqualityQuery(field, value)`: `field = 'escaped'`. -/
def buildEqualityQuery (field value : String) : String :=
  field ++ " = " ++ squote ++ escapeValue value ++ squote

/-- A subscriber identifier: `{id?, uuid?, email?}`. -/
structure Identifier where
  id : Option Int
  uuid : Option String
  email : Option String
deriving Repr, DecidableEq

/-- `findSubscriber(identifier)`: resolve one subscriber by numeric id, uuid
or email.  Lookup by id does `GET /subscribers/{id}`; uuid/email go through
one `GET /subscribers?per_page=1&query=field = 'value'` search.  An empty
successful result is turned into a 404 "Subscriber not found" error. -/
def findSubscriber (identifier : Identifier) (s : ClientSt) :
    LMCResp Subscriber × ClientSt :=
  match identifier.id with
  | some i =>
    let (res, s) := callRemote (.getSubscriberById i) s
    match res.subData with
    | some sub =>
      if res.success then
        ({ success := true, code := res.code, message := res.message,
           data := some sub }, s)
      else
        ({ success := res.success, code := res.code, message := res.message,
           data := some sub }, s)
    | none =>
      if res.success then
        (LMCResp.err "Subscriber not found" (some 404) none, s)
      else
        ({ success := res.success, code := res.code, message := res.message,
           data := none }, s)
  | none =>
    match identifier.uuid, identifier.email with
    | some u, _ =>
      let (res, s) :=
        callRemote (.querySubscribers 1 (buildEqualityQuery "uuid" u)) s
      (findSubscriberDecode res, s)
    | none, some e =>
      let (res, s) :=
        callRemote (.querySubscribers 1 (buildEqualityQuery "email" e)) s
      (findSubscriberDecode res, s)
    | none, none =>
      (LMCResp.err "id, uuid, or email is required" (some 400) none, s)
where
  /-- Shared interpretation of the search response: first result on a
  non-empty successful page, 404 on an empty successful page, propagate
  otherwise. -/
  findSubscriberDecode (res : Resp) : LMCResp Subscriber :=
    match res.pageData with
    | some (first :: _) =>
      if res.success then
        LMCResp.ok (some first) (some res.code) (some res.message)
      else
        { success := res.success, code := res.code, message := res.message,
          data := none }
    | _ =>
      if res.success then
        LMCResp.err "Subscriber not found" (some 404) none
      else
        { success := res.success, code := res.code, message := res.message,
          data := none }

/-- Options of `subscribe`: `{preconfirm?, status?}`. -/
structure SubscribeOptions where
  preconfirm : Option Bool
  status : Option String

/-- The input record of `subscribe`: `{email, name?, attribs?}`. -/
structure SubscribeInput where
  email : String
  name : Option String
  attribs : Option Attribs

/-- The result payload of `subscribe` (`LMCSubscribeResult`). -/
structure SubscribeResult where
  subscriber : Subscriber
  added : Bool
  alreadySubscribed : Bool
  created : Bool

/-- `subscribe(listId, input, options)`: idempotent upsert-and-attach, from
the current revision of the source.  The `Number.isFinite(listId)` guard is
vacuous here because the embedded `listId` is an integer. -/
def subscribe (listId : Int) (input : SubscribeInput)
    (options : SubscribeOptions) (s : ClientSt) :
    LMCResp SubscribeResult × ClientSt :=
  let email := (strTrim input.email)
  if email = "" then
    (LMCResp.err "Failed to subscribe: email is required" (some 400) none, s)
  else
    let name := input.name.getD ""
    let attribs := input.attribs.getD []
    let lists : List Int := [listId]
    let (existing, s) :=
      findSubscriber { id := none, uuid := none, email := some email } s
    match existing.data with
    | some sub =>
      if existing.success then
        let membership :=
          (sub.lists.getD []).find? (fun l => l.id = listId)
        let membershipStatus := membership.bind (fun m => m.subscription_status)
        if sub.status = "blocklisted" then
          (LMCResp.err "Failed to subscribe: subscriber is blocklisted"
            (some 400) none, s)
        else if strTruthy membershipStatus &&
            membershipStatus != some "unsubscribed" then
          (LMCResp.ok
            (some { subscriber := sub, added := false,
                    alreadySubscribed := true, created := false })
            (some existing.code) (some "Already subscribed"), s)
        else
          let (attachRes, s) :=
            if membershipStatus = some "unsubscribed" then
              callRemote (.putLists [sub.id] "add" (some [listId])) s
            else
              callRemote (.putListsPath listId [sub.id]) s
          if !attachRes.success then
            (LMCResp.err ("Failed to subscribe: " ++ attachRes.message)
              (some attachRes.code) none, s)
          else
            let (refreshed, s) := callRemote (.getSubscriberById sub.id) s
            let updatedSubscriber :=
              match refreshed.subData with
              | some u => if refreshed.success then u else sub
              | none => sub
            (LMCResp.ok
              (some { subscriber := updatedSubscriber, added := true,
                      alreadySubscribed := false, created := false })
              (some (if refreshed.success then refreshed.code
                     else attachRes.code))
              (some "Successfully subscribed"), s)
      else
        subscribeCreate email name attribs lists options existing s
    | none =>
      if !existing.success && existing.code != 404 then
        (LMCResp.err ("Failed to subscribe: " ++ existing.message)
          (some existing.code) none, s)
      else
        subscribeCreate email name attribs lists options existing s
where
  /-- The not-found tail of `subscribe`: the 404 gate and the create call
  (`POST /subscribers`, `status` included only when the option is truthy). -/
  subscribeCreate (email name : String) (attribs : Attribs)
      (lists : List Int) (options : SubscribeOptions)
      (existing : LMCResp Subscriber) (s : ClientSt) :
      LMCResp SubscribeResult × ClientSt :=
    if !existing.success && existing.code != 404 then
      (LMCResp.err ("Failed to subscribe: " ++ existing.message)
        (some existing.code) none, s)
    else
      let (createRes, s) :=
        callRemote
          (.postSubscriber email name attribs lists
            (options.preconfirm.getD true)
            (if strTruthy options.status then options.status else none)) s
      match createRes.subData with
      | some sub =>
        if createRes.success then
          (LMCResp.ok
            (some { subscriber := sub, added := true,
                    alreadySubscribed := false, created := true })
            (some createRes.code) (some "Successfully subscribed"), s)
        else
          (LMCResp.err ("Failed to subscribe: " ++ createRes.message)
            (some createRes.code) none, s)
      | none =>
        (LMCResp.err ("Failed to subscribe: " ++ createRes.message)
          (some createRes.code) none, s)

/-- `updates.uid !== existing.attribs.uid` in the source compares a string
against a JSON value with JS strict equality: equal only when the JSON value
is that same string. -/
def jsStrEq (s : String) : JsonValue → Bool
  | .str t => s = t
  | _ => false

/-- Convert a raw remote envelope into a subscriber-typed client envelope
(the implicit decoding done by `this.put<LMCSubscriber>` and friends). -/
def toSubResp (r : Resp) : LMCResp Subscriber :=
  { success := r.success, code := r.code, message := r.message,
    data := r.subData }

/-- The partial update record of `updateUser` (`Partial<LMCUser>`). -/
structure UserUpdates where
  email : Option String
  name : Option String
  attribs : Option Attribs
  uid : Option String

/-- `updateUser(identifier, updates, {forceUidChange?})` from the source.
The `Object.keys(updates).length === 0` guard is modelled as all four update
fields being absent. -/
def updateUser (identifier : Identifier) (updates : UserUpdates)
    (forceUidChange : Option Bool) (s : ClientSt) :
    LMCResp Subscriber × ClientSt :=
  if identifier.id.isNone && identifier.uuid.isNone &&
      identifier.email.isNone then
    (LMCResp.err "id, uuid, or email is required" (some 400) none, s)
  else if updates.email.isNone && updates.name.isNone &&
      updates.attribs.isNone && updates.uid.isNone then
    (LMCResp.err "No updates provided" (some 400) none, s)
  else
    let (subscriber, s) := findSubscriber identifier s
    match subscriber.data with
    | none => (subscriber, s)
    | some existing =>
      if !subscriber.success then (subscriber, s)
      else
        let nextAttribs :=
          attribsMerge existing.attribs (updates.attribs.getD [])
        match updates.uid, mapGet existing.attribs "uid" with
        | some newUid, some oldUid =>
          if !jsStrEq newUid oldUid && !(forceUidChange.getD false) then
            (LMCResp.err
              "UID mismatch; set forceUidChange to overwrite existing uid"
              (some 400) none, s)
          else
            updateUserPut existing updates (some newUid) nextAttribs s
        | some newUid, none =>
          updateUserPut existing updates (some newUid) nextAttribs s
        | none, _ =>
          updateUserPut existing updates none nextAttribs s
where
  /-- The tail of `updateUser` after the UID-mismatch guard: pin
  `attribs.uid`, validate the email, and issue the `PUT /subscribers/{id}`
  with the subscriber's current lists when non-empty. -/
  updateUserPut (existing : Subscriber) (updates : UserUpdates)
      (newUid : Option String) (nextAttribs : Attribs) (s : ClientSt) :
      LMCResp Subscriber × ClientSt :=
    let nextAttribs :=
      match newUid with
      | some u => mapSet nextAttribs "uid" (.str u)
      | none =>
        match mapGet existing.attribs "uid", mapGet nextAttribs "uid" with
        | some oldUid, none => mapSet nextAttribs "uid" oldUid
        | _, _ => nextAttribs
    let nextEmail :=
      match updates.email with
      | some e => strTrim e
      | none => existing.email
    if nextEmail = "" then
      (LMCResp.err "Email is required" (some 400) none, s)
    else
      let nextName :=
        match updates.name with
        | some n => n
        | none => existing.name
      let currentLists := existing.lists.map (fun ls => ls.map (fun l => l.id))
      let listsField :=
        match currentLists with
        | some ls => if ls.length > 0 then some ls else none
        | none => none
      let (res, s) :=
        callRemote
          (.putSubscriber existing.id nextEmail nextName nextAttribs
            listsField) s
      (toSubResp res, s)

/-- `tryAddName` inside `getListNameMap`: record a list's name when the list
has a (truthy) string name.  `Number.isFinite(list.id)` is vacuous for
integer ids. -/
def tryAddName (m : List (Int × String)) (l : Subscription) :
    List (Int × String) :=
  match l.name with
  | some n => if n != "" then mapSet m l.id n else m
  | none => m

/-- `listAllLists()` (visibility defaulted to "all"): fetch list metadata,
tolerating a decode failure as an "Unexpected response" error. -/
def listAllLists (s : ClientSt) : LMCResp (List Subscription) × ClientSt :=
  let (res, s) := callRemote .getLists s
  if !res.success then
    ({ success := res.success, code := res.code, message := res.message,
       data := none }, s)
  else
    match res.listData with
    | some results =>
      (LMCResp.ok (some results) (some res.code) (some res.message), s)
    | none =>
      (LMCResp.err "Unexpected response while fetching lists" (some res.code)
        none, s)

/-- `getListNameMap(subscriberLists)`: names from the subscriber's own lists,
optionally enriched from the time-bounded list-metadata cache. -/
def getListNameMap (subscriberLists : Option (List Subscription))
    (s : ClientSt) : List (Int × String) × ClientSt :=
  let map := (subscriberLists.getD []).foldl tryAddName []
  if s.listCacheSeconds = 0 then
    (map, s)
  else
    match s.listCache with
    | some (expiresAt, cached) =>
      if expiresAt > s.now then
        (cached.foldl tryAddName map, s)
      else
        getListNameMapFetch map s
    | none => getListNameMapFetch map s
where
  /-- Cache miss: fetch all lists, repopulate the cache on success. -/
  getListNameMapFetch (map : List (Int × String)) (s : ClientSt) :
      List (Int × String) × ClientSt :=
    let (res, s) := listAllLists s
    match res.data with
    | some results =>
      if res.success then
        let s := { s with
          listCache :=
            some (s.now + (s.listCacheSeconds : Int) * 1000, results) }
        (results.foldl tryAddName map, s)
      else (map, s)
    | none => (map, s)

/-- `describeListStatus(listId, context)`: the per-list outcome message,
computed from the pre-mutation membership snapshot. -/
def describeListStatus (listId : Int) (memberListIdSet : List Int)
    (subscribedListIds : List Int) (listNames : List (Int × String)) :
    String :=
  if !(mapGet listNames listId).isSome && !memberListIdSet.contains listId
  then "Unknown List"
  else if subscribedListIds.contains listId then "Subscribed"
  else "Unsubscribed"

/-- A JS number argument: `some n` for a finite integral value, `none` for a
non-finite value (`NaN`/`Infinity`), which `Number.isFinite` rejects. -/
abbrev NumV := Option Int

/-- One per-list entry of `LMCUnsubscribeResult`. -/
structure UnsubscribeListResult where
  listId : Int
  listName : Option String
  statusChanged : Bool
  message : String
deriving DecidableEq

/-- `LMCUnsubscribeResult`. -/
structure UnsubscribeResult where
  subscriberId : Int
  lists : List UnsubscribeListResult
deriving DecidableEq

/-- The membership snapshot computed by `unsubscribe` before mutating:
member ids in order, and the set of non-unsubscribed ("subscribed") ids. -/
def membershipSnapshot (lists : List Subscription) : List Int × List Int :=
  lists.foldl
    (fun acc l =>
      let memberListIds := acc.1 ++ [l.id]
      let subscribedListIds :=
        match l.subscription_status with
        | none => setAdd acc.2 l.id
        | some st => if st != "unsubscribed" then setAdd acc.2 l.id else acc.2
      (memberListIds, subscribedListIds))
    ([], [])

/-- `unsubscribe(identifier, lists?)` from the source.  The caller-side
normalization of `number | number[]` into an array is done by the caller of
this embedding, so `lists` arrives as an optional array. -/
def unsubscribe (identifier : Identifier) (lists : Option (List NumV))
    (s : ClientSt) : LMCResp UnsubscribeResult × ClientSt :=
  let (subscriber, s) := findSubscriber identifier s
  match subscriber.data with
  | none => (subscriber.retype, s)
  | some sub =>
    if !subscriber.success then (subscriber.retype, s)
    else
      match lists with
      | some listArray =>
        if !listArray.all (fun x => x.isSome) then
          (LMCResp.err "lists must be a number or array of numbers"
            (some 400) none, s)
        else
          let targetListIds :=
            let t := setOfList listArray
            if t.length = 0 then none else some t.reduceOption
          unsubscribeRun sub targetListIds s
      | none => unsubscribeRun sub none s
where
  /-- The body of `unsubscribe` after list-argument validation. -/
  unsubscribeRun (sub : Subscriber) (targetListIds : Option (List Int))
      (s : ClientSt) : LMCResp UnsubscribeResult × ClientSt :=
    let snap := membershipSnapshot (sub.lists.getD [])
    let memberListIds := snap.1
    let subscribedListIds := snap.2
    let memberListIdSet := setOfList memberListIds
    let (listNames, s) := getListNameMap sub.lists s
    let (res, s) :=
      callRemote (.putLists [sub.id] "unsubscribe" targetListIds) s
    let attemptedIds :=
      match targetListIds with
      | some t => if t.length > 0 then t else memberListIds
      | none => memberListIds
    let listsResult := attemptedIds.map (fun listId =>
      { listId := listId
        listName := mapGet listNames listId
        statusChanged :=
          memberListIds.length > 0 && subscribedListIds.contains listId
        message :=
          describeListStatus listId memberListIdSet subscribedListIds
            listNames })
    let result : UnsubscribeResult :=
      { subscriberId := sub.id, lists := listsResult }
    if res.success then
      (LMCResp.ok (some result) (some res.code) (some res.message), s)
    else
      (LMCResp.err res.message (some res.code) (some result), s)

/-- `listsToAdd` of `setSubscriptions`: the requested ids minus the current
non-unsubscribed ("subscribed") memberships. -/
def listsToAddOf (sub : Subscriber) (normalized : List Int) : List Int :=
  normalized.filter (fun id =>
    !(membershipSnapshot (sub.lists.getD [])).2.contains id)

/-- `listsToRemove` of `setSubscriptions`: the currently subscribed ids not
in the requested set, and only when `removeOthers` is set. -/
def listsToRemoveOf (sub : Subscriber) (targetSet : List Int)
    (removeOthers : Bool) : List Int :=
  if removeOthers then
    (membershipSnapshot (sub.lists.getD [])).1.filter (fun id =>
      (membershipSnapshot (sub.lists.getD [])).2.contains id &&
        !targetSet.contains id)
  else []

/-- One per-list entry of `LMCSetSubscriptionsResult`. -/
structure SetSubscriptionsListResult where
  listId : Int
  listName : Option String
  status : String
deriving DecidableEq

/-- `LMCSetSubscriptionsResult`. -/
structure SetSubscriptionsResult where
  subscriberId : Int
  lists : List SetSubscriptionsListResult
deriving DecidableEq

/-- `setSubscriptions(identifier, listIds, {removeOthers?})` from the
source. -/
def setSubscriptions (identifier : Identifier) (listIds : List NumV)
    (removeOthers : Option Bool) (s : ClientSt) :
    LMCResp SetSubscriptionsResult × ClientSt :=
  let normalized := ((setOfList listIds).filter (fun x => x.isSome)).reduceOption
  if listIds.length ≠ normalized.length then
    (LMCResp.err "listIds must be numbers" (some 400) none, s)
  else
    let (subscriber, s) := findSubscriber identifier s
    match subscriber.data with
    | none => (subscriber.retype, s)
    | some sub =>
      if !subscriber.success then (subscriber.retype, s)
      else
        let (listNames, s) := getListNameMap sub.lists s
        let targetSet := normalized
        let subscribedListIds := (membershipSnapshot (sub.lists.getD [])).2
        let listsToAdd := listsToAddOf sub normalized
        let listsToRemove :=
          listsToRemoveOf sub targetSet (removeOthers.getD false)
        let (addResOpt, s) :=
          if listsToAdd.length > 0 then
            let (r, s) := callRemote (.putLists [sub.id] "add"
              (some listsToAdd)) s
            (some r, s)
          else (none, s)
        match addResOpt with
        | some addRes =>
          if !addRes.success then
            ({ success := addRes.success, code := addRes.code,
               message := addRes.message, data := none }, s)
          else
            setSubscriptionsAfterAdd sub listNames targetSet listsToAdd
              listsToRemove
              (listsToAdd.foldl setAdd subscribedListIds) s
        | none =>
          setSubscriptionsAfterAdd sub listNames targetSet listsToAdd
            listsToRemove subscribedListIds s
where
  /-- `setSubscriptions` after the add call: the optional remove call and
  the per-list status report. -/
  setSubscriptionsAfterAdd (sub : Subscriber)
      (listNames : List (Int × String)) (targetSet listsToAdd listsToRemove
        subscribedListIds : List Int) (s : ClientSt) :
      LMCResp SetSubscriptionsResult × ClientSt :=
    let (removeResOpt, s) :=
      if listsToRemove.length > 0 then
        let (r, s) := callRemote (.putLists [sub.id] "unsubscribe"
          (some listsToRemove)) s
        (some r, s)
      else (none, s)
    match removeResOpt with
    | some removeRes =>
      if !removeRes.success then
        ({ success := removeRes.success, code := removeRes.code,
           message := removeRes.message, data := none }, s)
      else
        (setSubscriptionsReport sub listNames targetSet listsToAdd
          listsToRemove
          (listsToRemove.foldl (fun acc id => acc.filter (fun x => x ≠ id))
            subscribedListIds), s)
    | none =>
      (setSubscriptionsReport sub listNames targetSet listsToAdd
        listsToRemove subscribedListIds, s)
  /-- The final per-list status report of `setSubscriptions`. -/
  setSubscriptionsReport (sub : Subscriber)
      (listNames : List (Int × String)) (targetSet listsToAdd listsToRemove
        subscribedListIds : List Int) : LMCResp SetSubscriptionsResult :=
    let resultMap : List (Int × SetSubscriptionsListResult) :=
      targetSet.foldl (fun m id =>
        mapSet m id
          { listId := id, listName := mapGet listNames id,
            status :=
              if subscribedListIds.contains id then "Unchanged"
              else "Subscribed" }) []
    let resultMap :=
      listsToAdd.foldl (fun m id =>
        mapSet m id
          { listId := id, listName := mapGet listNames id,
            status := "Subscribed" }) resultMap
    let resultMap :=
      listsToRemove.foldl (fun m id =>
        mapSet m id
          { listId := id, listName := mapGet listNames id,
            status := "Unsubscribed" }) resultMap
    LMCResp.ok
      (some { subscriberId := sub.id,
              lists := resultMap.map (fun p => p.2) })
      none (some "Subscriptions updated")

/-- The recursion of `chunksOf2500`, structural on a fuel bound so that it
reduces definitionally (the zero-fuel branch is unreachable because the
list length bounds the number of non-empty chunks). -/
def chunksOf2500Go {α : Type} : Nat → List α → List (List α)
  | _, [] => []
  | 0, xs => [xs]
  | Nat.succ fuel, xs => xs.take 2500 :: chunksOf2500Go fuel (xs.drop 2500)

/-- Split a list into chunks of 2500, the lookup/write-back chunk size both
bulk operations use (`lookupChunkSize`, `addChunkSize`, `chunkSize`). -/
def chunksOf2500 {α : Type} (xs : List α) : List (List α) :=
  chunksOf2500Go xs.length xs

/-- The two lookup indices both bulk operations build:
by-lowercased-email and by-uid (from `attribs.uid`). -/
structure LookupMaps where
  byUid : List (String × Subscriber)
  byEmail : List (String × Subscriber)

/-- Merge one lookup page into the indices, exactly as the
`fetchSubscribers` closure does: index every result by lowercased email,
and by `attribs.uid` when that attribute is a (truthy) string. -/
def mergePageIntoMaps (maps : LookupMaps) (results : List Subscriber) :
    LookupMaps :=
  results.foldl
    (fun m sub =>
      let m := { m with byEmail := mapSet m.byEmail (strToLower sub.email) sub }
      match mapGet sub.attribs "uid" with
      | some (JsonValue.str u) =>
        if u != "" then { m with byUid := mapSet m.byUid u sub } else m
      | _ => m)
    maps

/-- The `fetchSubscribers` local closure shared verbatim by
`addSubscribersToList` and `syncUsersToList`: one `GET /subscribers` search
per 2500-value chunk with `per_page = max(chunk.length, 50)`; a failed chunk
is skipped (the maps are left as they are). -/
def fetchSubscribersInto (queryOf : List String → String)
    (values : List String) (maps : LookupMaps) (s : ClientSt) :
    LookupMaps × ClientSt :=
  (chunksOf2500 values).foldl
    (fun acc chunk =>
      let (maps, s) := acc
      let perPage := max chunk.length 50
      let (res, s) := callRemote (.querySubscribers perPage (queryOf chunk)) s
      match res.pageData with
      | some results =>
        if res.success then (mergePageIntoMaps maps results, s) else (maps, s)
      | none => (maps, s))
    (maps, s)

/-- The uid lookup filter: `attribs->>'uid' IN ('v1','v2',...)`.  The
`encodeURIComponent` wrapper is transport encoding and is not modelled. -/
def uidInQuery (chunk : List String) : String :=
  "attribs->>" ++ squote ++ "uid" ++ squote ++ " IN (" ++
    String.intercalate ","
      (chunk.map (fun u => squote ++ escapeValue u ++ squote)) ++ ")"

/-- The email lookup filter: `email IN ('v1','v2',...)`. -/
def emailInQuery (chunk : List String) : String :=
  "email IN (" ++
    String.intercalate ","
      (chunk.map (fun e => squote ++ escapeValue e ++ squote)) ++ ")"

/-- A bulk-add input entry (`LMCBulkSubscription`). -/
structure BulkEntry where
  email : String
  name : Option String
  uid : Option String
  attribs : Option Attribs

/-- A per-entry bulk-add failure (`LMCBulkAddError`). -/
structure BulkAddError where
  email : String
  message : String
  code : Int
deriving DecidableEq

/-- `LMCSubscriptionSnapshot`. -/
structure SubscriptionSnapshot where
  email : String
  lists : Option (List Subscription)
deriving DecidableEq

/-- `LMCBulkAddResult` of the current revision (with `errors`). -/
structure BulkAddResult where
  created : List Subscriber
  added : List Subscriber
  skippedBlocked : List String
  skippedUnsubscribed : List String
  memberships : List SubscriptionSnapshot
  errors : List BulkAddError

/-- The entry normalization of `addSubscribersToList`: derive the uid from
the entry or from a string-typed `attribs.uid`, and mirror a truthy derived
uid back into `attribs.uid`. -/
def normalizeBulkEntry (entry : BulkEntry) : BulkEntry :=
  let derivedUid :=
    match entry.uid with
    | some u => some u
    | none =>
      match mapGet (entry.attribs.getD []) "uid" with
      | some (JsonValue.str v) => some v
      | _ => none
  let attribs := entry.attribs.getD []
  let attribs :=
    match derivedUid with
    | some u => if u != "" then mapSet attribs "uid" (.str u) else attribs
    | none => attribs
  { entry with uid := derivedUid, attribs := some attribs }

/-- The dedup key of `addSubscribersToList`: `uid:<uid>` for a truthy uid,
else `email:<lowercased email>`. -/
def bulkKey (e : BulkEntry) : String :=
  match e.uid with
  | some u => if u != "" then "uid:" ++ u else "email:" ++ strToLower e.email
  | none => "email:" ++ strToLower e.email

/-- `deduped`: the batch after last-wins deduplication by `bulkKey`,
in JS `Map` iteration order (first-insertion order of each key). -/
def dedupBulk (normalized : List BulkEntry) : List (String × BulkEntry) :=
  normalized.foldl (fun m e => mapSet m (bulkKey e) e) []

/-- The per-entry loop state of the current `addSubscribersToList`. -/
structure BulkLoopState where
  created : List Subscriber
  added : List Subscriber
  skippedBlocked : List String
  skippedUnsubscribed : List String
  addIds : List Int
  resubscribeIds : List Int
  memberships : List SubscriptionSnapshot
  errors : List BulkAddError
  maps : LookupMaps

/-- The initial loop state over the given lookup maps. -/
def initBulkLoopState (maps : LookupMaps) : BulkLoopState :=
  { created := [], added := [], skippedBlocked := [],
    skippedUnsubscribed := [], addIds := [], resubscribeIds := [],
    memberships := [], errors := [], maps := maps }

/-- `entryAttribs` as recomputed at the top of the loop body:
`{...(entry.attribs ?? {})}` with a truthy uid assigned over it. -/
def entryAttribsOf (entry : BulkEntry) : Attribs :=
  let entryAttribs := entry.attribs.getD []
  match entry.uid with
  | some u => if u != "" then mapSet entryAttribs "uid" (.str u)
              else entryAttribs
  | none => entryAttribs

/-- The existing-subscriber lookup of the loop body: by uid first when the
entry has one (`entry.uid !== undefined`, presence not truthiness), falling
back to the lowercased email index. -/
def lookupExisting (maps : LookupMaps) (entry : BulkEntry) :
    Option Subscriber :=
  match entry.uid with
  | some u =>
    match mapGet maps.byUid u with
    | some sub => some sub
    | none => mapGet maps.byEmail (strToLower entry.email)
  | none => mapGet maps.byEmail (strToLower entry.email)

/-- One iteration of the current `addSubscribersToList` per-entry loop.
`Except.error` is the early return that aborts the whole batch (only the
email-rename update failure does this). -/
def processBulkEntry (listId : Int) (attachToList : Bool) (entry : BulkEntry)
    (st : BulkLoopState) (s : ClientSt) :
    Except (LMCResp BulkAddResult) BulkLoopState × ClientSt :=
  let emailKey := strToLower entry.email
  let entryAttribs := entryAttribsOf entry
  match lookupExisting st.maps entry with
  | none =>
    if attachToList then
      let (createRes, s) :=
        subscribe listId
          { email := entry.email, name := some (entry.name.getD ""),
            attribs := some entryAttribs }
          { preconfirm := some true, status := some "enabled" } s
      match createRes.data with
      | some subscribeData =>
        if createRes.success then
          let st :=
            if subscribeData.created then
              { st with created := st.created ++ [subscribeData.subscriber] }
            else
              { st with added := st.added ++ [subscribeData.subscriber] }
          (.ok { st with
              memberships := st.memberships ++
                [{ email := entry.email,
                   lists := subscribeData.subscriber.lists }] }, s)
        else
          (.ok { st with
              errors := st.errors ++
                [{ email := entry.email, message := createRes.message,
                   code := createRes.code }] }, s)
      | none =>
        (.ok { st with
            errors := st.errors ++
              [{ email := entry.email, message := createRes.message,
                 code := createRes.code }] }, s)
    else
      let (raw, s) :=
        callRemote
          (.postSubscriber entry.email (entry.name.getD "") entryAttribs []
            true (some "enabled")) s
      let createRes := toSubResp raw
      match createRes.data with
      | some sub =>
        if createRes.success then
          (.ok { st with
              created := st.created ++ [sub],
              memberships := st.memberships ++
                [{ email := entry.email, lists := sub.lists }] }, s)
        else
          (.ok { st with
              errors := st.errors ++
                [{ email := entry.email, message := createRes.message,
                   code := createRes.code }] }, s)
      | none =>
        (.ok { st with
            errors := st.errors ++
              [{ email := entry.email, message := createRes.message,
                 code := createRes.code }] }, s)
  | some existing0 =>
    let (renameOut, s) :=
      if strTruthy entry.uid && strToLower existing0.email != emailKey then
        let (raw, s) :=
          callRemote
            (.putSubscriber existing0.id entry.email
              (entry.name.getD existing0.name) entryAttribs none) s
        let updateRes := toSubResp raw
        match updateRes.data with
        | some updated =>
          if updateRes.success then (Except.ok (some updated), s)
          else
            (Except.error (LMCResp.err
              (if updateRes.message != "" then updateRes.message
               else "Failed to update subscriber email")
              (some updateRes.code) none), s)
        | none =>
          (Except.error (LMCResp.err
            (if updateRes.message != "" then updateRes.message
             else "Failed to update subscriber email")
            (some updateRes.code) none), s)
      else (Except.ok none, s)
    match renameOut with
    | .error e => (.error e, s)
    | .ok renamed =>
      let (existing, st) :=
        match renamed with
        | some updated =>
          (updated,
            { st with maps :=
                { byEmail := mapSet st.maps.byEmail emailKey updated,
                  byUid :=
                    if strTruthy entry.uid then
                      mapSet st.maps.byUid (entry.uid.getD "") updated
                    else st.maps.byUid } })
        | none => (existing0, st)
      if existing.status = "blocklisted" then
        (.ok { st with
            skippedBlocked := st.skippedBlocked ++ [existing.email],
            memberships := st.memberships ++
              [{ email := existing.email, lists := existing.lists }] }, s)
      else
        let listInfo := (existing.lists.getD []).find? (fun l => l.id = listId)
        let membershipStatus := listInfo.bind (fun l => l.subscription_status)
        let isUnsubscribed := membershipStatus = some "unsubscribed"
        if listInfo.isSome && membershipStatus != some "unsubscribed" then
          let st := if attachToList then
              { st with added := st.added ++ [existing] }
            else st
          (.ok { st with
              memberships := st.memberships ++
                [{ email := existing.email, lists := existing.lists }] }, s)
        else
          let st := { st with
            memberships := st.memberships ++
              [{ email := existing.email, lists := existing.lists }] }
          if attachToList then
            if isUnsubscribed then
              (.ok { st with
                  resubscribeIds := st.resubscribeIds ++ [existing.id],
                  added := st.added ++ [existing] }, s)
            else
              (.ok { st with
                  addIds := st.addIds ++ [existing.id],
                  added := st.added ++ [existing] }, s)
          else (.ok st, s)

/-- The whole per-entry loop, with the rename-failure early return. -/
def processBulkEntries (listId : Int) (attachToList : Bool)
    (entries : List BulkEntry) (st : BulkLoopState) (s : ClientSt) :
    Except (LMCResp BulkAddResult) BulkLoopState × ClientSt :=
  match entries with
  | [] => (.ok st, s)
  | e :: rest =>
    let (out, s) := processBulkEntry listId attachToList e st s
    match out with
    | .error r => (.error r, s)
    | .ok st => processBulkEntries listId attachToList rest st s

/-- The write-back phase: flush `addIds` in chunks through the path-scoped
list add, then `resubscribeIds` through the explicit `target_list_ids` add.
The current revision ignores the results of these calls. -/
def flushBulkWrites (listId : Int) (attachToList : Bool)
    (st : BulkLoopState) (s : ClientSt) : ClientSt :=
  let s :=
    if attachToList && st.addIds.length > 0 then
      (chunksOf2500 st.addIds).foldl
        (fun s chunk => (callRemote (.putListsPath listId chunk) s).2) s
    else s
  if attachToList && st.resubscribeIds.length > 0 then
    (chunksOf2500 st.resubscribeIds).foldl
      (fun s chunk =>
        (callRemote (.putLists chunk "add" (some [listId])) s).2) s
  else s

/-- The final aggregation of `addSubscribersToList`: per-entry errors make
the whole call fail with 500 when every deduped entry failed and 207
otherwise, returning the partial result sets as data either way. -/
def finalizeBulk (dedupSize : Nat) (st : BulkLoopState) :
    LMCResp BulkAddResult :=
  let result : BulkAddResult :=
    { created := st.created, added := st.added,
      skippedBlocked := st.skippedBlocked,
      skippedUnsubscribed := st.skippedUnsubscribed,
      memberships := st.memberships, errors := st.errors }
  if st.errors.length > 0 then
    LMCResp.err "Failed to add some subscribers"
      (some (if st.errors.length = dedupSize then 500 else 207))
      (some result)
  else
    LMCResp.ok (some result) none (some "Successfully added subscribers")

/-- The preparation phase shared by the loop of `addSubscribersToList`:
normalize the entries, dedup them, collect the uid/email key sets, and build
the lookup indices through the chunked searches. -/
def bulkPrepare (entries : List BulkEntry) (s : ClientSt) :
    List (String × BulkEntry) × LookupMaps × ClientSt :=
  let normalized := entries.map normalizeBulkEntry
  let deduped := dedupBulk normalized
  let uids := deduped.foldl
    (fun acc p =>
      if strTruthy p.2.uid then setAdd acc (p.2.uid.getD "") else acc) []
  let emails := deduped.foldl
    (fun acc p => setAdd acc (strToLower p.2.email)) []
  let maps : LookupMaps := { byUid := [], byEmail := [] }
  let (maps, s) :=
    if uids.length > 0 then fetchSubscribersInto uidInQuery uids maps s
    else (maps, s)
  let (maps, s) :=
    if emails.length > 0 then
      fetchSubscribersInto emailInQuery emails maps s
    else (maps, s)
  (deduped, maps, s)

/-- `addSubscribersToList(listId, entries, {attachToList?})`, current
revision: normalize, dedup, look up existing subscribers, run the per-entry
loop, flush the queued membership writes, and aggregate. -/
def addSubscribersToList (listId : Int) (entries : List BulkEntry)
    (attachToList : Option Bool) (s : ClientSt) :
    LMCResp BulkAddResult × ClientSt :=
  if entries.length = 0 then
    (LMCResp.ok
      (some { created := [], added := [], skippedBlocked := [],
              skippedUnsubscribed := [], memberships := [], errors := [] })
      none (some "No entries to process"), s)
  else
    let (deduped, maps, s) := bulkPrepare entries s
    let attach := attachToList.getD true
    let (out, s) :=
      processBulkEntries listId attach (deduped.map (fun p => p.2))
        (initBulkLoopState maps) s
    match out with
    | .error r => (r, s)
    | .ok st =>
      let s := flushBulkWrites listId attach st s
      (finalizeBulk deduped.length st, s)

/-- `JSON.stringify` of a string: double-quoted (the character escaping
inside the quotes is not modelled; it never affects control flow). -/
def jsonQuote (v : String) : String := "\"" ++ v ++ "\""

/-- `stableStringify(value)`: canonical serialization that recursively sorts
object keys (the `localeCompare` collation is modelled by the codepoint
order; no claim depends on the collation of distinct keys). -/
def stableStringify : JsonValue → String
  | .str v => jsonQuote v
  | .num n => toString n
  | .jbool b => if b then "true" else "false"
  | .null => "null"
  | .arr elems =>
    "[" ++
      String.intercalate ","
        (elems.attach.map (fun p => stableStringify p.1)) ++ "]"
  | .obj fields =>
    let entries :=
      (fields.attach.map (fun p => (p.1.1, stableStringify p.1.2)))
    let entries := entries.mergeSort (fun a b => a.1 ≤ b.1)
    "\x7b" ++
      String.intercalate ","
        (entries.map (fun q => jsonQuote q.1 ++ ":" ++ q.2)) ++ "\x7d"
decreasing_by
  · have h1 := List.sizeOf_lt_of_mem p.2
    simp only [JsonValue.arr.sizeOf_spec]
    omega
  · obtain ⟨⟨k, v⟩, hm⟩ := p
    have h1 := List.sizeOf_lt_of_mem hm
    simp only [Prod.mk.sizeOf_spec] at h1
    simp only [JsonValue.obj.sizeOf_spec]
    omega

/-- `areAttribsEqual(a, b)`: equality of canonical serializations. -/
def areAttribsEqual (a b : Attribs) : Bool :=
  stableStringify (.obj a) = stableStringify (.obj b)

/-- `LMCBulkAddResult` of the earlier (plain) revision: no `errors`. -/
structure BulkAddResultPlain where
  created : List Subscriber
  added : List Subscriber
  skippedBlocked : List String
  skippedUnsubscribed : List String
  memberships : List SubscriptionSnapshot

/-- The per-entry loop state of the plain `addSubscribersToList`. -/
structure PlainLoopState where
  created : List Subscriber
  added : List Subscriber
  skippedBlocked : List String
  skippedUnsubscribed : List String
  addIds : List Int
  memberships : List SubscriptionSnapshot
  maps : LookupMaps

/-- One iteration of the plain `addSubscribersToList` per-entry loop
(earlier source revision): entries with an `unsubscribed` membership go to
`skippedUnsubscribed`, create failures are silently dropped, and the create
path is one `POST /subscribers` (that revision's `subscribe` is a plain
create with `lists=[listId]`). -/
def processPlainEntry (listId : Int) (attachToList : Bool)
    (entry : BulkEntry) (st : PlainLoopState) (s : ClientSt) :
    Except (LMCResp BulkAddResultPlain) PlainLoopState × ClientSt :=
  let emailKey := strToLower entry.email
  let entryAttribs := entryAttribsOf entry
  match lookupExisting st.maps entry with
  | none =>
    let (raw, s) :=
      if attachToList then
        callRemote
          (.postSubscriber entry.email (entry.name.getD "") entryAttribs
            [listId] true (some "enabled")) s
      else
        callRemote
          (.postSubscriber entry.email (entry.name.getD "") entryAttribs []
            true (some "enabled")) s
    let createRes := toSubResp raw
    match createRes.data with
    | some sub =>
      if createRes.success then
        (.ok { st with
            created := st.created ++ [sub],
            memberships := st.memberships ++
              [{ email := entry.email, lists := sub.lists }] }, s)
      else (.ok st, s)
    | none => (.ok st, s)
  | some existing0 =>
    let (renameOut, s) :=
      if strTruthy entry.uid && strToLower existing0.email != emailKey then
        let (raw, s) :=
          callRemote
            (.putSubscriber existing0.id entry.email
              (entry.name.getD existing0.name) entryAttribs none) s
        let updateRes := toSubResp raw
        match updateRes.data with
        | some updated =>
          if updateRes.success then (Except.ok (some updated), s)
          else
            (Except.error (LMCResp.err
              (if updateRes.message != "" then updateRes.message
               else "Failed to update subscriber email")
              (some updateRes.code) none), s)
        | none =>
          (Except.error (LMCResp.err
            (if updateRes.message != "" then updateRes.message
             else "Failed to update subscriber email")
            (some updateRes.code) none), s)
      else (Except.ok none, s)
    match renameOut with
    | .error e => (.error e, s)
    | .ok renamed =>
      let (existing, st) :=
        match renamed with
        | some updated =>
          (updated,
            { st with maps :=
                { byEmail := mapSet st.maps.byEmail emailKey updated,
                  byUid :=
                    if strTruthy entry.uid then
                      mapSet st.maps.byUid (entry.uid.getD "") updated
                    else st.maps.byUid } })
        | none => (existing0, st)
      if existing.status = "blocklisted" then
        (.ok { st with
            skippedBlocked := st.skippedBlocked ++ [existing.email],
            memberships := st.memberships ++
              [{ email := existing.email, lists := existing.lists }] }, s)
      else
        let listInfo := (existing.lists.getD []).find? (fun l => l.id = listId)
        let membershipStatus := listInfo.bind (fun l => l.subscription_status)
        if membershipStatus = some "unsubscribed" then
          (.ok { st with
              skippedUnsubscribed := st.skippedUnsubscribed ++
                [existing.email],
              memberships := st.memberships ++
                [{ email := existing.email, lists := existing.lists }] }, s)
        else if listInfo.isSome && membershipStatus != some "unsubscribed"
        then
          let st := if attachToList then
              { st with added := st.added ++ [existing] }
            else st
          (.ok { st with
              memberships := st.memberships ++
                [{ email := existing.email, lists := existing.lists }] }, s)
        else
          let st := { st with
            memberships := st.memberships ++
              [{ email := existing.email, lists := existing.lists }] }
          if attachToList then
            (.ok { st with
                addIds := st.addIds ++ [existing.id],
                added := st.added ++ [existing] }, s)
          else (.ok st, s)

/-- The whole plain per-entry loop. -/
def processPlainEntries (listId : Int) (attachToList : Bool)
    (entries : List BulkEntry) (st : PlainLoopState) (s : ClientSt) :
    Except (LMCResp BulkAddResultPlain) PlainLoopState × ClientSt :=
  match entries with
  | [] => (.ok st, s)
  | e :: rest =>
    let (out, s) := processPlainEntry listId attachToList e st s
    match out with
    | .error r => (.error r, s)
    | .ok st => processPlainEntries listId attachToList rest st s

/-- `addSubscribersToList` of the earlier (plain) source revision. -/
def addSubscribersToListPlain (listId : Int) (entries : List BulkEntry)
    (attachToList : Option Bool) (s : ClientSt) :
    LMCResp BulkAddResultPlain × ClientSt :=
  if entries.length = 0 then
    (LMCResp.ok
      (some { created := [], added := [], skippedBlocked := [],
              skippedUnsubscribed := [], memberships := [] })
      none (some "No entries to process"), s)
  else
    let normalized := entries.map normalizeBulkEntry
    let deduped := dedupBulk normalized
    let uids := deduped.foldl
      (fun acc p =>
        if strTruthy p.2.uid then setAdd acc (p.2.uid.getD "") else acc) []
    let emails := deduped.foldl
      (fun acc p => setAdd acc (strToLower p.2.email)) []
    let maps : LookupMaps := { byUid := [], byEmail := [] }
    let (maps, s) :=
      if uids.length > 0 then fetchSubscribersInto uidInQuery uids maps s
      else (maps, s)
    let (maps, s) :=
      if emails.length > 0 then
        fetchSubscribersInto emailInQuery emails maps s
      else (maps, s)
    let attach := attachToList.getD true
    let (out, s) :=
      processPlainEntries listId attach (deduped.map (fun p => p.2))
        { created := [], added := [], skippedBlocked := [],
          skippedUnsubscribed := [], addIds := [], memberships := [],
          maps := maps } s
    match out with
    | .error r => (r, s)
    | .ok st =>
      let s :=
        if attach && st.addIds.length > 0 then
          (chunksOf2500 st.addIds).foldl
            (fun s chunk => (callRemote (.putListsPath listId chunk) s).2) s
        else s
      (LMCResp.ok
        (some { created := st.created, added := st.added,
                skippedBlocked := st.skippedBlocked,
                skippedUnsubscribed := st.skippedUnsubscribed,
                memberships := st.memberships })
        none none, s)

/-- A sync input record (`LMCUser`). -/
structure SyncUser where
  email : String
  name : Option String
  attribs : Option Attribs
  uid : Option String

/-- The normalized sync record (`NormalizedUser`). -/
structure NormalizedUser where
  email : String
  name : Option String
  attribs : Attribs
  uid : String

/-- The sync counters (`LMCSyncUsersResult`). -/
structure SyncCounts where
  blocked : Nat
  unsubscribed : Nat
  added : Nat
  updated : Nat
deriving DecidableEq

/-- The normalization step of `syncUsersToList`. -/
def syncNormalize (user : SyncUser) : NormalizedUser :=
  { email := strTrim user.email
    name := user.name.map strTrim
    attribs := user.attribs.getD []
    uid := strTrim (user.uid.getD "") }

/-- The strict-by-uid dedup of `syncUsersToList`
(`normalized.forEach(u => deduped.set(u.uid, u))`). -/
def dedupSync (normalized : List NormalizedUser) :
    List (String × NormalizedUser) :=
  normalized.foldl (fun m u => mapSet m u.uid u) []

/-- The per-entry loop state of `syncUsersToList` (the lookup maps are never
mutated by this loop). -/
structure SyncLoopState where
  counts : SyncCounts
  addIds : List Int
  resubscribeIds : List Int

/-- The `res as unknown as LMCResponse<Other>` propagation of a raw remote
envelope (used by the sync write-back aborts). -/
def rawRetype {α : Type} (r : Resp) : LMCResp α :=
  { success := r.success, code := r.code, message := r.message, data := none }

/-- One iteration of the `syncUsersToList` per-entry loop.  `Except.error`
is the early return aborting the whole sync (create or update failure). -/
def processSyncEntry (listId : Int) (maps : LookupMaps)
    (entry : NormalizedUser) (st : SyncLoopState) (s : ClientSt) :
    Except (LMCResp SyncCounts) SyncLoopState × ClientSt :=
  let emailKey := strToLower entry.email
  let existing0 :=
    match mapGet maps.byUid entry.uid with
    | some sub => some sub
    | none => mapGet maps.byEmail emailKey
  match existing0 with
  | none =>
    let attribs := mapSet entry.attribs "uid" (.str entry.uid)
    let (createRes, s) :=
      subscribe listId
        { email := entry.email, name := some (entry.name.getD ""),
          attribs := some attribs }
        { preconfirm := some true, status := some "enabled" } s
    match createRes.data with
    | some subscribeData =>
      if createRes.success then
        if subscribeData.added then
          (.ok { st with counts :=
              { st.counts with added := st.counts.added + 1 } }, s)
        else (.ok st, s)
      else (.error createRes.retype, s)
    | none => (.error createRes.retype, s)
  | some existing =>
    if existing.status = "blocklisted" then
      (.ok { st with counts :=
          { st.counts with blocked := st.counts.blocked + 1 } }, s)
    else
      let listInfo := (existing.lists.getD []).find? (fun l => l.id = listId)
      let membershipStatus := listInfo.bind (fun l => l.subscription_status)
      let isUnsubscribed := membershipStatus = some "unsubscribed"
      let st :=
        if isUnsubscribed then
          { st with counts :=
              { st.counts with
                unsubscribed := st.counts.unsubscribed + 1 } }
        else st
      let targetAttribs :=
        mapSet (attribsMerge existing.attribs entry.attribs) "uid"
          (.str entry.uid)
      let targetEmail := entry.email
      let targetName := entry.name.getD existing.name
      let needsEmailUpdate :=
        strToLower existing.email != strToLower targetEmail
      let needsNameUpdate := existing.name != targetName
      let needsAttribUpdate :=
        !areAttribsEqual existing.attribs targetAttribs
      let (updOut, s) :=
        if needsEmailUpdate || needsNameUpdate || needsAttribUpdate then
          let (raw, s) :=
            callRemote
              (.putSubscriber existing.id targetEmail targetName
                targetAttribs none) s
          let updateRes := toSubResp raw
          match updateRes.data with
          | some updated =>
            if updateRes.success then (Except.ok (some updated), s)
            else (Except.error (updateRes.retype : LMCResp SyncCounts), s)
          | none => (Except.error (updateRes.retype : LMCResp SyncCounts), s)
        else (Except.ok none, s)
      match updOut with
      | .error e => (.error e, s)
      | .ok updated =>
        let (existing, st) :=
          match updated with
          | some u =>
            (u, { st with counts :=
                { st.counts with updated := st.counts.updated + 1 } })
          | none => (existing, st)
        let listEntry :=
          (existing.lists.getD []).find? (fun l => l.id = listId)
        let onList :=
          match listEntry with
          | some l => l.subscription_status != some "unsubscribed"
          | none => false
        if !onList || isUnsubscribed then
          if isUnsubscribed then
            (.ok { st with
                resubscribeIds := st.resubscribeIds ++ [existing.id],
                counts :=
                  { st.counts with added := st.counts.added + 1 } }, s)
          else
            (.ok { st with
                addIds := st.addIds ++ [existing.id],
                counts :=
                  { st.counts with added := st.counts.added + 1 } }, s)
        else (.ok st, s)

/-- The whole `syncUsersToList` per-entry loop. -/
def processSyncEntries (listId : Int) (maps : LookupMaps)
    (entries : List NormalizedUser) (st : SyncLoopState) (s : ClientSt) :
    Except (LMCResp SyncCounts) SyncLoopState × ClientSt :=
  match entries with
  | [] => (.ok st, s)
  | e :: rest =>
    let (out, s) := processSyncEntry listId maps e st s
    match out with
    | .error r => (.error r, s)
    | .ok st => processSyncEntries listId maps rest st s

/-- The sync write-back phase: flush `addIds` then `resubscribeIds` in
chunks, aborting the whole sync on the first failed chunk. -/
def flushSyncWrites (listId : Int) (st : SyncLoopState) (s : ClientSt) :
    Except (LMCResp SyncCounts) Unit × ClientSt :=
  let addOut :=
    (chunksOf2500 st.addIds).foldl
      (fun (acc : Except (LMCResp SyncCounts) Unit × ClientSt) chunk =>
        match acc with
        | (Except.error e, s) => (Except.error e, s)
        | (Except.ok _, s) =>
          let (res, s) := callRemote (.putListsPath listId chunk) s
          if !res.success then (Except.error (rawRetype res), s)
          else (Except.ok (), s))
      (Except.ok (), s)
  match addOut with
  | (Except.error e, s) => (.error e, s)
  | (Except.ok _, s) =>
    (chunksOf2500 st.resubscribeIds).foldl
      (fun (acc : Except (LMCResp SyncCounts) Unit × ClientSt) chunk =>
        match acc with
        | (Except.error e, s) => (Except.error e, s)
        | (Except.ok _, s) =>
          let (res, s) :=
            callRemote (.putLists chunk "add" (some [listId])) s
          if !res.success then (Except.error (rawRetype res), s)
          else (Except.ok (), s))
      (Except.ok (), s)

/-- `syncUsersToList(listId, users)` from the source: batch upsert keyed
strictly by uid.  The `Number.isFinite(listId)` guard is vacuous for an
integer `listId`. -/
def syncUsersToList (listId : Int) (users : List SyncUser) (s : ClientSt) :
    LMCResp SyncCounts × ClientSt :=
  if users.length = 0 then
    (LMCResp.ok
      (some { blocked := 0, unsubscribed := 0, added := 0, updated := 0 })
      none none, s)
  else
    let normalized := users.map syncNormalize
    if (normalized.find? (fun u => u.uid = "")).isSome then
      (LMCResp.err "Each user must include a uid" (some 400) none, s)
    else if (normalized.find? (fun u => u.email = "")).isSome then
      (LMCResp.err "Each user must include an email" (some 400) none, s)
    else
      let deduped := dedupSync normalized
      let uids := deduped.map (fun p => p.1)
      let emails := deduped.foldl
        (fun acc p => setAdd acc (strToLower p.2.email)) []
      let maps : LookupMaps := { byUid := [], byEmail := [] }
      let (maps, s) :=
        if uids.length > 0 then fetchSubscribersInto uidInQuery uids maps s
        else (maps, s)
      let (maps, s) :=
        if emails.length > 0 then
          fetchSubscribersInto emailInQuery emails maps s
        else (maps, s)
      let (out, s) :=
        processSyncEntries listId maps (deduped.map (fun p => p.2))
          { counts :=
              { blocked := 0, unsubscribed := 0, added := 0, updated := 0 },
            addIds := [], resubscribeIds := [] } s
      match out with
      | .error r => (r, s)
      | .ok st =>
        let (flushOut, s) := flushSyncWrites listId st s
        match flushOut with
        | .error r => (r, s)
        | .ok _ => (LMCResp.ok (some st.counts) none none, s)

/-! ### Helper lemmas about the JS map/set model -/

theorem mapGet_cons {κ α : Type} [DecidableEq κ]
    (a : κ) (b : α) (tl : List (κ × α)) (k : κ) :
    mapGet ((a, b) :: tl) k = if a = k then some b else mapGet tl k := by
  by_cases h : a = k
  · simp [mapGet, List.find?_cons_of_pos, h]
  · simp [mapGet, List.find?_cons_of_neg, h]

theorem mapGet_map_replace {κ α : Type} [DecidableEq κ]
    (m : List (κ × α)) (k k2 : κ) (v : α) :
    mapGet (m.map (fun p => if p.1 = k then (k, v) else p)) k2 =
      if k2 = k then (if m.any (fun p => p.1 = k) then some v else none)
      else mapGet m k2 := by
  induction m with
  | nil => by_cases h : k2 = k <;> simp [mapGet, h]
  | cons hd tl ih =>
    obtain ⟨a, b⟩ := hd
    by_cases h1 : a = k
    · subst h1
      have hmap :
          ((a, b) :: tl).map (fun p => if p.1 = a then (a, v) else p) =
            (a, v) :: tl.map (fun p => if p.1 = a then (a, v) else p) := by
        simp
      rw [hmap, mapGet_cons, mapGet_cons]
      by_cases h2 : k2 = a
      · subst h2
        simp [List.any_cons]
      · have h2a : ¬(a = k2) := fun hh => h2 hh.symm
        simp only [h2a, if_false, h2, ih, List.any_cons]
    · have hmap :
          ((a, b) :: tl).map (fun p => if p.1 = k then (k, v) else p) =
            (a, b) :: tl.map (fun p => if p.1 = k then (k, v) else p) := by
        simp [h1]
      rw [hmap, mapGet_cons, mapGet_cons]
      by_cases h3 : a = k2
      · have h2 : ¬(k2 = k) := fun hh => h1 (h3.trans hh)
        simp [h3, h2]
      · simp only [h3, if_false]
        rw [ih]
        by_cases h2 : k2 = k
        · have hak : (decide (a = k)) = false := by simp [h1]
          simp only [h2, if_true, List.any_cons, hak, Bool.false_or]
        · simp [h2]

theorem mapGet_not_found {κ α : Type} [DecidableEq κ]
    (m : List (κ × α)) (k : κ)
    (h : m.any (fun p => p.1 = k) = false) : mapGet m k = none := by
  induction m with
  | nil => rfl
  | cons hd tl ih =>
    obtain ⟨a, b⟩ := hd
    simp only [List.any_cons, Bool.or_eq_false_iff, decide_eq_false_iff_not]
      at h
    rw [mapGet_cons]
    simp [h.1, ih (by simpa using h.2)]

theorem mapGet_append_single {κ α : Type} [DecidableEq κ]
    (m : List (κ × α)) (k k2 : κ) (v : α) :
    mapGet (m ++ [(k, v)]) k2 =
      match mapGet m k2 with
      | some b => some b
      | none => if k = k2 then some v else none := by
  induction m with
  | nil =>
    simp only [List.nil_append]
    rw [mapGet_cons]
    rfl
  | cons hd tl ih =>
    obtain ⟨a, b⟩ := hd
    rw [List.cons_append, mapGet_cons, mapGet_cons]
    by_cases h : a = k2 <;> simp [h, ih]

theorem mapGet_mapSet {κ α : Type} [DecidableEq κ]
    (m : List (κ × α)) (k k2 : κ) (v : α) :
    mapGet (mapSet m k v) k2 = if k2 = k then some v else mapGet m k2 := by
  unfold mapSet
  by_cases h : m.any (fun p => p.1 = k)
  · rw [if_pos h]
    rw [mapGet_map_replace]
    by_cases h2 : k2 = k <;> simp [h, h2]
  · rw [if_neg h]
    rw [mapGet_append_single]
    by_cases h2 : k2 = k
    · subst h2
      have hany : m.any (fun p => p.1 = k2) = false := by
        revert h
        cases hany : m.any (fun p => decide (p.1 = k2)) <;> simp [hany]
      have hnone := mapGet_not_found m k2 hany
      simp [hnone]
    · have hk : ¬(k = k2) := fun hh => h2 hh.symm
      cases hfind : mapGet m k2 <;> simp [hk, h2, hfind]

theorem keys_mapSet {κ α : Type} [DecidableEq κ]
    (m : List (κ × α)) (k : κ) (v : α) :
    (mapSet m k v).map Prod.fst =
      if m.any (fun p => p.1 = k) then m.map Prod.fst
      else m.map Prod.fst ++ [k] := by
  unfold mapSet
  by_cases h : m.any (fun p => p.1 = k)
  · rw [if_pos h, if_pos h, List.map_map]
    apply List.map_congr_left
    intro p _
    by_cases hp : p.1 = k <;> simp [hp]
  · rw [if_neg h, if_neg h]
    simp

theorem any_key_iff_mem_keys {κ α : Type} [DecidableEq κ]
    (m : List (κ × α)) (k : κ) :
    m.any (fun p => p.1 = k) = true ↔ k ∈ m.map Prod.fst := by
  simp only [List.any_eq_true, List.mem_map, decide_eq_true_eq]

theorem nodup_keys_keyFold {κ α : Type} [DecidableEq κ] (f : α → κ) :
    ∀ (l : List α) (m : List (κ × α)),
      (m.map Prod.fst).Nodup →
      ((l.foldl (fun m e => mapSet m (f e) e) m).map Prod.fst).Nodup := by
  intro l
  induction l with
  | nil => intro m h; simpa using h
  | cons e l ih =>
    intro m h
    simp only [List.foldl_cons]
    apply ih
    rw [keys_mapSet]
    by_cases hany : m.any (fun p => p.1 = f e)
    · simpa [hany] using h
    · rw [if_neg hany]
      rw [List.nodup_append]
      refine ⟨h, List.nodup_singleton _, ?_⟩
      intro a ha
      simp only [List.mem_singleton]
      intro hk
      subst hk
      exact hany ((any_key_iff_mem_keys m (f e)).mpr ha)

theorem mapGet_keyFold {κ α : Type} [DecidableEq κ] (f : α → κ) :
    ∀ (l : List α) (m : List (κ × α)) (k : κ),
      mapGet (l.foldl (fun m e => mapSet m (f e) e) m) k =
        match l.reverse.find? (fun e => f e = k) with
        | some e => some e
        | none => mapGet m k := by
  intro l
  induction l with
  | nil => intro m k; simp
  | cons e l ih =>
    intro m k
    simp only [List.foldl_cons, List.reverse_cons]
    rw [ih, List.find?_append]
    cases hfind : l.reverse.find? (fun e => f e = k)
    · simp only [hfind, Option.orElse_none, Option.none_orElse]
      rw [mapGet_mapSet]
      by_cases hk : f e = k
      · subst hk
        simp [List.find?]
      · have hk2 : ¬(k = f e) := fun hh => hk hh.symm
        simp [List.find?, hk, hk2]
    · simp [hfind]

theorem mem_setAdd {α : Type} [DecidableEq α] (s : List α) (x a : α) :
    a ∈ setAdd s x ↔ a ∈ s ∨ a = x := by
  unfold setAdd
  by_cases h : s.contains x
  · rw [if_pos h]
    have hx : x ∈ s := by simpa [List.elem_iff] using h
    constructor
    · exact Or.inl
    · rintro (ha | rfl)
      · exact ha
      · exact hx
  · rw [if_neg h]
    simp

theorem mem_foldl_setAdd {α : Type} [DecidableEq α] (a : α) :
    ∀ (xs acc : List α), a ∈ xs.foldl setAdd acc ↔ a ∈ acc ∨ a ∈ xs := by
  intro xs
  induction xs with
  | nil => simp
  | cons x xs ih =>
    intro acc
    simp only [List.foldl_cons]
    rw [ih, mem_setAdd]
    simp only [List.mem_cons]
    tauto

theorem mem_setOfList {α : Type} [DecidableEq α] (a : α) (xs : List α) :
    a ∈ setOfList xs ↔ a ∈ xs := by
  unfold setOfList
  rw [mem_foldl_setAdd]
  simp

theorem setAdd_length_le {α : Type} [DecidableEq α] (s : List α) (x : α) :
    (setAdd s x).length ≤ s.length + 1 := by
  unfold setAdd
  by_cases h : s.contains x
  · rw [if_pos h]
    omega
  · rw [if_neg h]
    simp

theorem setAdd_of_mem {α : Type} [DecidableEq α] {s : List α} {x : α}
    (h : x ∈ s) : setAdd s x = s := by
  unfold setAdd
  rw [if_pos (by simpa [List.elem_iff] using h)]

theorem foldl_setAdd_length_le {α : Type} [DecidableEq α] :
    ∀ (xs acc : List α),
      (xs.foldl setAdd acc).length ≤ acc.length + xs.length := by
  intro xs
  induction xs with
  | nil => simp
  | cons x xs ih =>
    intro acc
    simp only [List.foldl_cons, List.length_cons]
    calc (List.foldl setAdd (setAdd acc x) xs).length
        ≤ (setAdd acc x).length + xs.length := ih _
      _ ≤ (acc.length + 1) + xs.length :=
          Nat.add_le_add_right (setAdd_length_le acc x) _
      _ = acc.length + (xs.length + 1) := by omega

theorem foldl_setAdd_length_lt_of_mem {α : Type} [DecidableEq α] :
    ∀ (xs acc : List α) (x : α), x ∈ xs → x ∈ acc →
      (xs.foldl setAdd acc).length < acc.length + xs.length := by
  intro xs
  induction xs with
  | nil => intro acc x hx; simp at hx
  | cons y xs ih =>
    intro acc x hx hacc
    simp only [List.foldl_cons, List.length_cons]
    rcases List.mem_cons.mp hx with rfl | hx2
    · rw [setAdd_of_mem hacc]
      calc (List.foldl setAdd acc xs).length
          ≤ acc.length + xs.length := foldl_setAdd_length_le xs acc
        _ < acc.length + (xs.length + 1) := by omega
    · have hx3 : x ∈ setAdd acc y := (mem_setAdd acc y x).mpr (Or.inl hacc)
      calc (List.foldl setAdd (setAdd acc y) xs).length
          < (setAdd acc y).length + xs.length := ih _ x hx2 hx3
        _ ≤ (acc.length + 1) + xs.length :=
            Nat.add_le_add_right (setAdd_length_le acc y) _
        _ = acc.length + (xs.length + 1) := by omega

theorem foldl_setAdd_length_lt_of_dup {α : Type} [DecidableEq α] :
    ∀ (xs acc : List α), ¬xs.Nodup →
      (xs.foldl setAdd acc).length < acc.length + xs.length := by
  intro xs
  induction xs with
  | nil => intro acc h; exact absurd List.nodup_nil h
  | cons y xs ih =>
    intro acc h
    simp only [List.foldl_cons, List.length_cons]
    by_cases hy : y ∈ xs
    · have hy2 : y ∈ setAdd acc y := (mem_setAdd acc y y).mpr (Or.inr rfl)
      calc (List.foldl setAdd (setAdd acc y) xs).length
          < (setAdd acc y).length + xs.length :=
            foldl_setAdd_length_lt_of_mem xs _ y hy hy2
        _ ≤ (acc.length + 1) + xs.length :=
            Nat.add_le_add_right (setAdd_length_le acc y) _
        _ = acc.length + (xs.length + 1) := by omega
    · have hxs : ¬xs.Nodup := by
        intro hnd
        exact h (List.nodup_cons.mpr ⟨hy, hnd⟩)
      calc (List.foldl setAdd (setAdd acc y) xs).length
          < (setAdd acc y).length + xs.length := ih _ hxs
        _ ≤ (acc.length + 1) + xs.length :=
            Nat.add_le_add_right (setAdd_length_le acc y) _
        _ = acc.length + (xs.length + 1) := by omega

theorem setOfList_length_le {α : Type} [DecidableEq α] (xs : List α) :
    (setOfList xs).length ≤ xs.length := by
  have := foldl_setAdd_length_le xs ([] : List α)
  simpa [setOfList] using this

theorem setOfList_length_lt_of_dup {α : Type} [DecidableEq α]
    {xs : List α} (h : ¬xs.Nodup) : (setOfList xs).length < xs.length := by
  have := foldl_setAdd_length_lt_of_dup xs ([] : List α) h
  simpa [setOfList] using this

theorem setOfList_eq_self {α : Type} [DecidableEq α] :
    ∀ {xs : List α}, xs.Nodup → setOfList xs = xs := by
  have gen : ∀ (xs acc : List α), (acc ++ xs).Nodup →
      xs.foldl setAdd acc = acc ++ xs := by
    intro xs
    induction xs with
    | nil => intro acc _; simp
    | cons x xs ih =>
      intro acc h
      simp only [List.foldl_cons]
      have hx : x ∉ acc := by
        intro hmem
        have := List.disjoint_of_nodup_append h
        exact this hmem (List.mem_cons_self x xs)
      have hadd : setAdd acc x = acc ++ [x] := by
        unfold setAdd
        rw [if_neg]
        intro hc
        exact hx (by simpa [List.elem_iff] using hc)
      rw [hadd, ih (acc ++ [x]) (by simpa using h)]
      simp
  intro xs h
  have := gen xs [] (by simpa using h)
  simpa [setOfList] using this

theorem length_filter_lt_of_mem_not {α : Type} {l : List α} {p : α → Bool}
    {x : α} (hx : x ∈ l) (hpx : p x = false) :
    (l.filter p).length < l.length := by
  induction l with
  | nil => simp at hx
  | cons a l ih =>
    rcases List.mem_cons.mp hx with rfl | hx2
    · rw [List.filter_cons, hpx]
      simp only [List.length_cons]
      calc (l.filter p).length ≤ l.length := l.length_filter_le p
        _ < l.length + 1 := by omega
    · rw [List.filter_cons]
      cases hpa : p a
      · simp only [List.length_cons]
        calc (l.filter p).length < l.length := ih hx2
          _ < l.length + 1 := by omega
      · simp only [List.length_cons]
        exact Nat.succ_lt_succ (ih hx2)

/-- A default response used by concrete test environments. -/
def failResp : Resp :=
  { success := false, code := 500, message := "Unknown error", data := none }

/-- A fresh client state over a given oracle, with the list cache disabled
(the repository default: `listCacheSeconds` unset). -/
def mkSt (env : Nat → RemoteCall → Resp) : ClientSt :=
  { env := env, count := 0, trace := [], listCacheSeconds := 0,
    listCache := none, now := 0 }

/-- C4: in `addSubscribersToList` the batch is deduplicated by the key
`uid:<uid>` when the normalized entry has a (truthy) uid — the uid having
been mirrored into `attribs.uid` by normalization — and by
`email:<lowercased email>` otherwise; in `syncUsersToList` the batch is
deduplicated strictly by uid.  In both, a later entry with the same key
completely replaces the earlier one (the stored entry for a key is the last
input entry with that key), and each key is kept exactly once. -/
theorem bulk_and_sync_dedup_last_wins :
    (∀ (entries : List BulkEntry) (k : String),
       mapGet (dedupBulk (entries.map normalizeBulkEntry)) k =
         (entries.map normalizeBulkEntry).reverse.find?
           (fun e => bulkKey e = k)) ∧
    (∀ entries : List BulkEntry,
       ((dedupBulk (entries.map normalizeBulkEntry)).map Prod.fst).Nodup) ∧
    (∀ (e : BulkEntry) (u : String),
       (normalizeBulkEntry e).uid = some u → u ≠ "" →
         bulkKey (normalizeBulkEntry e) = "uid:" ++ u ∧
         mapGet ((normalizeBulkEntry e).attribs.getD []) "uid" =
           some (JsonValue.str u)) ∧
    (∀ e : BulkEntry, strTruthy (normalizeBulkEntry e).uid = false →
       bulkKey (normalizeBulkEntry e) = "email:" ++ strToLower e.email) ∧
    (∀ (users : List NormalizedUser) (k : String),
       mapGet (dedupSync users) k =
         users.reverse.find? (fun u => u.uid = k)) ∧
    (∀ users : List NormalizedUser,
       ((dedupSync users).map Prod.fst).Nodup) := by
  refine ⟨?_, ?_, ?_, ?_, ?_, ?_⟩
  · intro entries k
    have h := mapGet_keyFold bulkKey (entries.map normalizeBulkEntry) [] k
    rw [show dedupBulk (entries.map normalizeBulkEntry) =
        (entries.map normalizeBulkEntry).foldl
          (fun m e => mapSet m (bulkKey e) e) [] from rfl, h]
    cases hfind : (entries.map normalizeBulkEntry).reverse.find?
        (fun e => bulkKey e = k) <;> simp [hfind, mapGet]
  · intro entries
    exact nodup_keys_keyFold bulkKey (entries.map normalizeBulkEntry) []
      (by simp)
  · intro e u hu hne
    unfold normalizeBulkEntry at hu ⊢
    simp only at hu ⊢
    rw [hu]
    constructor
    · unfold bulkKey
      simp [hne]
    · simp only [hu, Option.getD_some]
      have hne2 : (u != "") = true := by simpa using hne
      simp only [hne2, if_true]
      rw [mapGet_mapSet]
      simp
  · intro e hfalse
    unfold bulkKey
    cases hu : (normalizeBulkEntry e).uid with
    | none =>
      have hemail : (normalizeBulkEntry e).email = e.email := by
        unfold normalizeBulkEntry
        simp
      simp [hemail]
    | some u =>
      rw [hu] at hfalse
      unfold strTruthy at hfalse
      have : u = "" := by simpa using hfalse
      subst this
      have hemail : (normalizeBulkEntry e).email = e.email := by
        unfold normalizeBulkEntry
        simp
      simp [hemail]
  · intro users k
    have h := mapGet_keyFold (fun u => u.uid) users [] k
    rw [show dedupSync users =
        users.foldl (fun m u => mapSet m u.uid u) [] from rfl, h]
    cases hfind : users.reverse.find? (fun u => u.uid = k) <;>
      simp [hfind, mapGet]
  · intro users
    exact nodup_keys_keyFold (fun u => u.uid) users [] (by simp)

/-- Witness for the dedup theorem at a concrete entry: an entry carrying
`uid = "u1"` is keyed `uid:u1` and its uid is mirrored into `attribs.uid`. -/
theorem bulk_and_sync_dedup_last_wins_witness :
    bulkKey (normalizeBulkEntry
      { email := "A@X", name := none, uid := some "u1", attribs := none }) =
        "uid:" ++ "u1" ∧
    mapGet ((normalizeBulkEntry
      { email := "A@X", name := none, uid := some "u1",
        attribs := none }).attribs.getD []) "uid" =
      some (JsonValue.str "u1") :=
  bulk_and_sync_dedup_last_wins.2.2.1
    { email := "A@X", name := none, uid := some "u1", attribs := none }
    "u1" (by rfl) (by decide)

/-- C10: `setSubscriptions` rejects a `listIds` array containing a
duplicate or a non-finite number with a local 400 "listIds must be numbers"
error, before any remote call (the client state is returned untouched). -/
theorem setSubscriptions_rejects_dup_or_nonnumeric
    (identifier : Identifier) (listIds : List NumV)
    (removeOthers : Option Bool) (s : ClientSt)
    (h : ¬listIds.Nodup ∨ none ∈ listIds) :
    setSubscriptions identifier listIds removeOthers s =
      (LMCResp.err "listIds must be numbers" (some 400) none, s) := by
  have hlt :
      (((setOfList listIds).filter (fun x => x.isSome)).reduceOption).length
        < listIds.length := by
    rcases h with hdup | hnone
    · calc (((setOfList listIds).filter
            (fun x => x.isSome)).reduceOption).length
          ≤ ((setOfList listIds).filter (fun x => x.isSome)).length :=
            List.reduceOption_length_le _
        _ ≤ (setOfList listIds).length :=
            (setOfList listIds).length_filter_le _
        _ < listIds.length := setOfList_length_lt_of_dup hdup
    · have hmem : (none : NumV) ∈ setOfList listIds :=
        (mem_setOfList none listIds).mpr hnone
      calc (((setOfList listIds).filter
            (fun x => x.isSome)).reduceOption).length
          ≤ ((setOfList listIds).filter (fun x => x.isSome)).length :=
            List.reduceOption_length_le _
        _ < (setOfList listIds).length :=
            length_filter_lt_of_mem_not hmem (by rfl)
        _ ≤ listIds.length := setOfList_length_le listIds
  have hne :
      listIds.length ≠
        (((setOfList listIds).filter (fun x => x.isSome)).reduceOption).length
      := by omega
  unfold setSubscriptions
  simp only []
  rw [if_pos hne]

/-- Witness for the C10 theorem: a duplicated (otherwise valid) id pair is
rejected with 400 and no remote call. -/
theorem setSubscriptions_rejects_dup_witness :
    setSubscriptions { id := none, uuid := none, email := some "a@x" }
      [some 1, some 1] none (mkSt (fun _ _ => failResp)) =
      (LMCResp.err "listIds must be numbers" (some 400) none,
        mkSt (fun _ _ => failResp)) :=
  setSubscriptions_rejects_dup_or_nonnumeric _ _ _ _ (by decide)

/-- The state left behind by `findSubscriber`: exactly one (non-mutating)
lookup call for a usable identifier, no call for an empty identifier. -/
theorem findSubscriber_snd (i : Identifier) (s : ClientSt) :
    (findSubscriber i s).2 =
      match i.id with
      | some v =>
        { s with count := s.count + 1,
                 trace := s.trace ++ [.getSubscriberById v] }
      | none =>
        match i.uuid, i.email with
        | some u, _ =>
          { s with count := s.count + 1,
                   trace := s.trace ++
                     [.querySubscribers 1 (buildEqualityQuery "uuid" u)] }
        | none, some e =>
          { s with count := s.count + 1,
                   trace := s.trace ++
                     [.querySubscribers 1 (buildEqualityQuery "email" e)] }
        | none, none => s := by
  rcases i with ⟨iid, iuuid, iemail⟩
  cases iid with
  | some v =>
    unfold findSubscriber callRemote
    simp only []
    split <;> split <;> rfl
  | none =>
    cases iuuid with
    | some u =>
      unfold findSubscriber callRemote
      rfl
    | none =>
      cases iemail with
      | some e =>
        unfold findSubscriber callRemote
        rfl
      | none =>
        unfold findSubscriber
        rfl

/-- An empty identifier makes `findSubscriber` fail locally. -/
theorem findSubscriber_all_none (s : ClientSt) :
    findSubscriber { id := none, uuid := none, email := none } s =
      (LMCResp.err "id, uuid, or email is required" (some 400) none, s) := by
  unfold findSubscriber
  rfl

/-- C7: when `updates.uid` is given, the existing subscriber has an
`attribs.uid`, and the two differ (JS strict comparison), `updateUser`
without `forceUidChange` fails locally with 400 and a message starting with
"UID mismatch", issuing no call beyond the lookup; with
`forceUidChange = true` it proceeds and the `attribs.uid` sent in the
`PUT /subscribers/{id}` body is the new uid. -/
theorem updateUser_uid_mismatch_guard :
    (∀ (identifier : Identifier) (updates : UserUpdates)
       (force : Option Bool) (s : ClientSt) (sub : Subscriber)
       (fr : LMCResp Subscriber) (s1 : ClientSt) (u : String)
       (oldUid : JsonValue),
       findSubscriber identifier s = (fr, s1) →
       fr.success = true → fr.data = some sub →
       updates.uid = some u →
       mapGet sub.attribs "uid" = some oldUid →
       jsStrEq u oldUid = false →
       (force = none ∨ force = some false) →
       updateUser identifier updates force s =
         (LMCResp.err
           "UID mismatch; set forceUidChange to overwrite existing uid"
           (some 400) none, s1) ∧
       "UID mismatch".data.isPrefixOf
         (updateUser identifier updates force s).1.message.data = true ∧
       (∀ c ∈ s1.trace, c ∈ s.trace ∨ c.isMutation = false)) ∧
    (∀ (identifier : Identifier) (updates : UserUpdates) (s : ClientSt)
       (sub : Subscriber) (fr : LMCResp Subscriber) (s1 : ClientSt)
       (u : String) (oldUid : JsonValue),
       findSubscriber identifier s = (fr, s1) →
       fr.success = true → fr.data = some sub →
       updates.uid = some u →
       mapGet sub.attribs "uid" = some oldUid →
       (match updates.email with
        | some e => strTrim e ≠ ""
        | none => sub.email ≠ "") →
       ∃ (body : Attribs) (em nm : String) (lf : Option (List Int)),
         updateUser identifier updates (some true) s =
           (toSubResp (s1.env s1.count (.putSubscriber sub.id em nm body lf)),
            { s1 with count := s1.count + 1,
                      trace := s1.trace ++
                        [.putSubscriber sub.id em nm body lf] }) ∧
         mapGet body "uid" = some (JsonValue.str u)) := by
  have hguard : ∀ (identifier : Identifier) (updates : UserUpdates)
      (s : ClientSt) (fr : LMCResp Subscriber) (s1 : ClientSt) (u : String),
      findSubscriber identifier s = (fr, s1) →
      fr.success = true → updates.uid = some u →
      (identifier.id.isNone && identifier.uuid.isNone &&
        identifier.email.isNone) = false ∧
      (updates.email.isNone && updates.name.isNone &&
        updates.attribs.isNone && updates.uid.isNone) = false := by
    intro identifier updates s fr s1 u heq hsucc hu
    constructor
    · by_contra hcon
      have hb : (identifier.id.isNone && identifier.uuid.isNone &&
          identifier.email.isNone) = true := by
        revert hcon
        cases identifier.id.isNone && identifier.uuid.isNone &&
          identifier.email.isNone <;> simp
      have hie : identifier = { id := none, uuid := none, email := none } := by
        rcases identifier with ⟨iid, iuuid, iemail⟩
        cases iid <;> cases iuuid <;> cases iemail <;> simp_all
      rw [hie, findSubscriber_all_none] at heq
      have : fr.success = false := by
        have h1 : fr = LMCResp.err "id, uuid, or email is required"
            (some 400) none := by
          have := congrArg Prod.fst heq
          simpa using this.symm
        rw [h1]
        rfl
      rw [this] at hsucc
      exact absurd hsucc (by simp)
    · simp [hu]
  constructor
  · intro identifier updates force s sub fr s1 u oldUid heq hsucc hdata hu
      hold hjs hforce
    obtain ⟨hid, hupd⟩ := hguard identifier updates s fr s1 u heq hsucc hu
    have hmain : updateUser identifier updates force s =
        (LMCResp.err
          "UID mismatch; set forceUidChange to overwrite existing uid"
          (some 400) none, s1) := by
      unfold updateUser
      simp only [hid, hupd, Bool.false_eq_true, if_false, heq]
      simp only [hdata, hsucc, Bool.not_true, Bool.false_eq_true, if_false]
      simp only [hu, hold]
      have hforced : force.getD false = false := by
        rcases hforce with rfl | rfl <;> rfl
      simp [hjs, hforced]
    refine ⟨hmain, ?_, ?_⟩
    · rw [hmain]
      show "UID mismatch".data.isPrefixOf
        "UID mismatch; set forceUidChange to overwrite existing uid".data =
          true
      decide
    · intro c hc
      have hs1 : s1 = (findSubscriber identifier s).2 := by
        rw [heq]
      rw [findSubscriber_snd] at hs1
      rcases identifier with ⟨iid, iuuid, iemail⟩
      cases iid with
      | some v =>
        subst hs1
        simp only [] at hc
        rcases List.mem_append.mp hc with hl | hr
        · exact Or.inl hl
        · right
          simp only [List.mem_singleton] at hr
          subst hr
          rfl
      | none =>
        cases iuuid with
        | some uu =>
          subst hs1
          rcases List.mem_append.mp hc with hl | hr
          · exact Or.inl hl
          · right
            simp only [List.mem_singleton] at hr
            subst hr
            rfl
        | none =>
          cases iemail with
          | some ee =>
            subst hs1
            rcases List.mem_append.mp hc with hl | hr
            · exact Or.inl hl
            · right
              simp only [List.mem_singleton] at hr
              subst hr
              rfl
          | none =>
            subst hs1
            exact Or.inl hc
  · intro identifier updates s sub fr s1 u oldUid heq hsucc hdata hu hold
      hemail
    obtain ⟨hid, hupd⟩ := hguard identifier updates s fr s1 u heq hsucc hu
    refine ⟨mapSet (attribsMerge sub.attribs (updates.attribs.getD []))
        "uid" (JsonValue.str u),
      (match updates.email with
       | some e => strTrim e
       | none => sub.email),
      (match updates.name with
       | some n => n
       | none => sub.name),
      (match sub.lists.map (fun ls => ls.map (fun l => l.id)) with
       | some ls => if ls.length > 0 then some ls else none
       | none => none), ?_, ?_⟩
    · unfold updateUser
      simp only [hid, hupd, Bool.false_eq_true, if_false, heq]
      simp only [hdata, hsucc, Bool.not_true, Bool.false_eq_true, if_false]
      simp only [hu, hold]
      have hcond : (!jsStrEq u oldUid && !(some true).getD false) = false := by
        simp
      simp only [hcond, Bool.false_eq_true, if_false]
      unfold updateUser.updateUserPut
      simp only []
      have hne :
          (match updates.email with
           | some e => strTrim e
           | none => sub.email) ≠ "" := by
        revert hemail
        cases updates.email <;> simp
      rw [if_neg hne]
      unfold callRemote
      rfl
    · rw [mapGet_mapSet]
      simp

/-- A concrete existing subscriber used by the updateUser witness. -/
def subW : Subscriber :=
  { id := 7, uuid := "s-uuid", email := "w@x", name := "W",
    attribs := [("uid", JsonValue.str "old")], status := "enabled",
    lists := none }

/-- A concrete oracle whose every search returns `subW`. -/
def envW : Nat → RemoteCall → Resp := fun _ c =>
  match c with
  | .querySubscribers _ _ =>
    { success := true, code := 200, message := "OK",
      data := some (.page [subW]) }
  | _ => failResp

/-- Witness for the UID-mismatch guard: a differing uid without
`forceUidChange` yields the 400 "UID mismatch" failure. -/
theorem updateUser_uid_mismatch_guard_witness :
    (updateUser { id := none, uuid := none, email := some "w@x" }
      { email := none, name := none, attribs := none, uid := some "new" }
      none (mkSt envW)).1.code = 400 ∧
    (updateUser { id := none, uuid := none, email := some "w@x" }
      { email := none, name := none, attribs := none, uid := some "new" }
      none (mkSt envW)).1.success = false := by
  have h := updateUser_uid_mismatch_guard.1
    { id := none, uuid := none, email := some "w@x" }
    { email := none, name := none, attribs := none, uid := some "new" }
    none (mkSt envW) subW
    { success := true, code := 200, message := "OK", data := some subW }
    { env := envW, count := 1,
      trace := [RemoteCall.querySubscribers 1
        (buildEqualityQuery "email" "w@x")],
      listCacheSeconds := 0, listCache := none, now := 0 }
    "new" (JsonValue.str "old")
    (by rfl) (by rfl) (by rfl) (by rfl) (by rfl) (by rfl) (Or.inl rfl)
  rw [h.1]
  exact ⟨rfl, rfl⟩

/-- C1: in the plain bulk-add flow, an entry whose matched existing
subscriber is not blocklisted but whose membership on the target list is
`unsubscribed` has its email appended to `skippedUnsubscribed`, the add
queue is untouched, and no remote call at all is issued for it (first
conjunct: the match needs no email rename; second conjunct: the match is
renamed first, and the only call issued is the rename update, which is not
a membership mutation). -/
theorem plain_bulk_unsubscribed_skips :
    (∀ (listId : Int) (attach : Bool) (entry : BulkEntry)
       (st : PlainLoopState) (s : ClientSt) (sub : Subscriber),
       lookupExisting st.maps entry = some sub →
       (strTruthy entry.uid &&
         strToLower sub.email != strToLower entry.email) = false →
       sub.status ≠ "blocklisted" →
       ((sub.lists.getD []).find? (fun l => l.id = listId)).bind
         (fun l => l.subscription_status) = some "unsubscribed" →
       processPlainEntry listId attach entry st s =
         (.ok { st with
             skippedUnsubscribed := st.skippedUnsubscribed ++ [sub.email],
             memberships := st.memberships ++
               [{ email := sub.email, lists := sub.lists }] }, s)) ∧
    (∀ (listId : Int) (attach : Bool) (entry : BulkEntry)
       (st : PlainLoopState) (s : ClientSt) (sub0 updated : Subscriber),
       lookupExisting st.maps entry = some sub0 →
       (strTruthy entry.uid &&
         strToLower sub0.email != strToLower entry.email) = true →
       (s.env s.count (.putSubscriber sub0.id entry.email
         (entry.name.getD sub0.name) (entryAttribsOf entry) none)).success
           = true →
       (s.env s.count (.putSubscriber sub0.id entry.email
         (entry.name.getD sub0.name) (entryAttribsOf entry) none)).subData
           = some updated →
       updated.status ≠ "blocklisted" →
       ((updated.lists.getD []).find? (fun l => l.id = listId)).bind
         (fun l => l.subscription_status) = some "unsubscribed" →
       processPlainEntry listId attach entry st s =
         (.ok { st with
             maps :=
               { byEmail := mapSet st.maps.byEmail (strToLower entry.email)
                   updated,
                 byUid :=
                   if strTruthy entry.uid then
                     mapSet st.maps.byUid (entry.uid.getD "") updated
                   else st.maps.byUid },
             skippedUnsubscribed :=
               st.skippedUnsubscribed ++ [updated.email],
             memberships := st.memberships ++
               [{ email := updated.email, lists := updated.lists }] },
          { s with count := s.count + 1,
                   trace := s.trace ++
                     [.putSubscriber sub0.id entry.email
                       (entry.name.getD sub0.name) (entryAttribsOf entry)
                       none] }) ∧
       RemoteCall.isMembershipMutation
         (.putSubscriber sub0.id entry.email (entry.name.getD sub0.name)
           (entryAttribsOf entry) none) = false) := by
  constructor
  · intro listId attach entry st s sub hlook hnorename hblock hunsub
    unfold processPlainEntry
    simp only [hlook]
    simp only [hnorename, Bool.false_eq_true, if_false]
    rw [if_neg hblock, if_pos hunsub]
  · intro listId attach entry st s sub0 updated hlook hrename hsucc hdata
      hblock hunsub
    unfold processPlainEntry
    simp only [hlook]
    simp only [hrename, if_true]
    unfold callRemote
    simp only [toSubResp]
    simp only [hdata, hsucc, if_true]
    refine ⟨?_, rfl⟩
    rw [if_neg hblock, if_pos hunsub]

/-- Every call on the trace after a `findSubscriber` is either an old call
or a non-mutating lookup. -/
theorem findSubscriber_trace_nonmutating (i : Identifier) (s : ClientSt)
    (fr : LMCResp Subscriber) (s1 : ClientSt)
    (heq : findSubscriber i s = (fr, s1)) :
    ∀ c ∈ s1.trace, c ∈ s.trace ∨ c.isMutation = false := by
  intro c hc
  have hs1 : s1 = (findSubscriber i s).2 := by rw [heq]
  rw [findSubscriber_snd] at hs1
  rcases i with ⟨iid, iuuid, iemail⟩
  cases iid with
  | some v =>
    subst hs1
    rcases List.mem_append.mp hc with hl | hr
    · exact Or.inl hl
    · right
      simp only [List.mem_singleton] at hr
      subst hr
      rfl
  | none =>
    cases iuuid with
    | some uu =>
      subst hs1
      rcases List.mem_append.mp hc with hl | hr
      · exact Or.inl hl
      · right
        simp only [List.mem_singleton] at hr
        subst hr
        rfl
    | none =>
      cases iemail with
      | some ee =>
        subst hs1
        rcases List.mem_append.mp hc with hl | hr
        · exact Or.inl hl
        · right
          simp only [List.mem_singleton] at hr
          subst hr
          rfl
      | none =>
        subst hs1
        exact Or.inl hc

/-- The concrete unsubscribed-membership subscriber of the C1 witness. -/
def subP : Subscriber :=
  { id := 3, uuid := "", email := "p@x", name := "", attribs := [],
    status := "enabled",
    lists := some [{ id := 5, subscription_status := some "unsubscribed",
                     name := none }] }

/-- The concrete plain-loop state of the C1 witness. -/
def stP : PlainLoopState :=
  { created := [], added := [], skippedBlocked := [],
    skippedUnsubscribed := [], addIds := [], memberships := [],
    maps := { byUid := [], byEmail := [("p@x", subP)] } }

/-- Witness for the plain-flow skip: a matched subscriber unsubscribed from
list 5 is recorded in `skippedUnsubscribed` with the state untouched. -/
theorem plain_bulk_unsubscribed_skips_witness :
    processPlainEntry 5 true
      { email := "p@x", name := none, uid := none, attribs := none }
      stP (mkSt (fun _ _ => failResp)) =
      (.ok { stP with
          skippedUnsubscribed := ["p@x"],
          memberships := [{ email := "p@x", lists := subP.lists }] },
       mkSt (fun _ _ => failResp)) := by
  have h := plain_bulk_unsubscribed_skips.1 5 true
    { email := "p@x", name := none, uid := none, attribs := none }
    stP (mkSt (fun _ _ => failResp)) subP (by rfl) (by rfl) (by decide)
    (by rfl)
  exact h

/-- C2: a blocklisted existing subscriber is never attached, added, or
created.  First conjunct: `subscribe` fails with the 400 blocklist error
right after the lookup, with no mutating call on the trace.  Second and
third conjuncts: the current bulk-add loop records the email in
`skippedBlocked` and leaves both write-back queues and the remote state
untouched (the rename-free and renamed cases).  Fourth conjunct:
`syncUsersToList` only increments the `blocked` counter, with no call. -/
theorem blocklisted_never_attached :
    (∀ (listId : Int) (input : SubscribeInput) (opts : SubscribeOptions)
       (s : ClientSt) (sub : Subscriber) (fr : LMCResp Subscriber)
       (s1 : ClientSt),
       (strTrim input.email) ≠ "" →
       findSubscriber
         { id := none, uuid := none, email := some (strTrim input.email) } s =
           (fr, s1) →
       fr.success = true → fr.data = some sub →
       sub.status = "blocklisted" →
       subscribe listId input opts s =
         (LMCResp.err "Failed to subscribe: subscriber is blocklisted"
           (some 400) none, s1) ∧
       (∀ c ∈ s1.trace, c ∈ s.trace ∨ c.isMutation = false)) ∧
    (∀ (listId : Int) (attach : Bool) (entry : BulkEntry)
       (st : BulkLoopState) (s : ClientSt) (sub : Subscriber),
       lookupExisting st.maps entry = some sub →
       (strTruthy entry.uid &&
         strToLower sub.email != strToLower entry.email) = false →
       sub.status = "blocklisted" →
       processBulkEntry listId attach entry st s =
         (.ok { st with
             skippedBlocked := st.skippedBlocked ++ [sub.email],
             memberships := st.memberships ++
               [{ email := sub.email, lists := sub.lists }] }, s)) ∧
    (∀ (listId : Int) (attach : Bool) (entry : BulkEntry)
       (st : BulkLoopState) (s : ClientSt) (sub0 updated : Subscriber),
       lookupExisting st.maps entry = some sub0 →
       (strTruthy entry.uid &&
         strToLower sub0.email != strToLower entry.email) = true →
       (s.env s.count (.putSubscriber sub0.id entry.email
         (entry.name.getD sub0.name) (entryAttribsOf entry) none)).success
           = true →
       (s.env s.count (.putSubscriber sub0.id entry.email
         (entry.name.getD sub0.name) (entryAttribsOf entry) none)).subData
           = some updated →
       updated.status = "blocklisted" →
       processBulkEntry listId attach entry st s =
         (.ok { st with
             maps :=
               { byEmail := mapSet st.maps.byEmail (strToLower entry.email)
                   updated,
                 byUid :=
                   if strTruthy entry.uid then
                     mapSet st.maps.byUid (entry.uid.getD "") updated
                   else st.maps.byUid },
             skippedBlocked := st.skippedBlocked ++ [updated.email],
             memberships := st.memberships ++
               [{ email := updated.email, lists := updated.lists }] },
          { s with count := s.count + 1,
                   trace := s.trace ++
                     [.putSubscriber sub0.id entry.email
                       (entry.name.getD sub0.name) (entryAttribsOf entry)
                       none] }) ∧
       RemoteCall.isMembershipMutation
         (.putSubscriber sub0.id entry.email (entry.name.getD sub0.name)
           (entryAttribsOf entry) none) = false) ∧
    (∀ (listId : Int) (maps : LookupMaps) (entry : NormalizedUser)
       (st : SyncLoopState) (s : ClientSt) (sub : Subscriber),
       (match mapGet maps.byUid entry.uid with
        | some sub0 => some sub0
        | none => mapGet maps.byEmail (strToLower entry.email)) = some sub →
       sub.status = "blocklisted" →
       processSyncEntry listId maps entry st s =
         (.ok { st with counts :=
             { st.counts with blocked := st.counts.blocked + 1 } }, s)) := by
  refine ⟨?_, ?_, ?_, ?_⟩
  · intro listId input opts s sub fr s1 hemail heq hsucc hdata hblock
    constructor
    · unfold subscribe
      rw [if_neg hemail]
      simp only [heq]
      simp only [hdata, hsucc, if_true]
      rw [if_pos hblock]
    · exact findSubscriber_trace_nonmutating _ s fr s1 heq
  · intro listId attach entry st s sub hlook hnorename hblock
    unfold processBulkEntry
    simp only [hlook]
    simp only [hnorename, Bool.false_eq_true, if_false]
    rw [if_pos hblock]
  · intro listId attach entry st s sub0 updated hlook hrename hsucc hdata
      hblock
    unfold processBulkEntry
    simp only [hlook]
    simp only [hrename, if_true]
    unfold callRemote
    simp only [toSubResp]
    simp only [hdata, hsucc, if_true]
    refine ⟨?_, rfl⟩
    rw [if_pos hblock]
  · intro listId maps entry st s sub hlook hblock
    unfold processSyncEntry
    simp only [hlook]
    rw [if_pos hblock]

/-- The blocklisted subscriber of the C2 witness. -/
def subB : Subscriber :=
  { id := 9, uuid := "", email := "b@x", name := "", attribs := [],
    status := "blocklisted", lists := none }

/-- Witness for blocklist stickiness, on the sync loop: a blocklisted match
only bumps the `blocked` counter and issues no call. -/
theorem blocklisted_never_attached_witness :
    processSyncEntry 1 { byUid := [("u9", subB)], byEmail := [] }
      { email := "b@x", name := none, attribs := [], uid := "u9" }
      { counts := { blocked := 0, unsubscribed := 0, added := 0,
                    updated := 0 },
        addIds := [], resubscribeIds := [] }
      (mkSt (fun _ _ => failResp)) =
      (.ok { counts := { blocked := 1, unsubscribed := 0, added := 0,
                         updated := 0 },
             addIds := [], resubscribeIds := [] },
       mkSt (fun _ _ => failResp)) := by
  have h := blocklisted_never_attached.2.2.2 1
    { byUid := [("u9", subB)], byEmail := [] }
    { email := "b@x", name := none, attribs := [], uid := "u9" }
    { counts := { blocked := 0, unsubscribed := 0, added := 0,
                  updated := 0 },
      addIds := [], resubscribeIds := [] }
    (mkSt (fun _ _ => failResp)) subB (by rfl) (by rfl)
  exact h

/-- The email-equality lookup call of `subscribe`. -/
def emailLookupCall (email : String) : RemoteCall :=
  .querySubscribers 1 (buildEqualityQuery "email" email)

/-- The create call `subscribe` issues for a not-found email. -/
def subscribeCreateCall (email name : String) (attribs : Attribs)
    (listId : Int) (pre : Bool) (status : Option String) : RemoteCall :=
  .postSubscriber email name attribs [listId] pre status

/-- The successful `subscribe` result envelopes. -/
def subscribeOkResult (sub : Subscriber) (added alreadySubscribed
    created : Bool) (code : Int) (message : String) :
    LMCResp SubscribeResult :=
  LMCResp.ok
    (some { subscriber := sub, added := added,
            alreadySubscribed := alreadySubscribed, created := created })
    (some code) (some message)

/-- C5: subscribing twice in a row for an email with no matching subscriber
creates on the first call (`created = true`) and reports
`alreadySubscribed = true, added = false` on the second, whose only remote
call is the (non-mutating) lookup. -/
theorem subscribe_twice_idempotent (listId : Int) (input : SubscribeInput)
    (opts1 opts2 : SubscribeOptions) (s : ClientSt) (sub : Subscriber)
    (hemail : strTrim input.email ≠ "")
    (h0 : s.env s.count (emailLookupCall (strTrim input.email)) =
      { success := true, code := 200, message := "OK",
        data := some (.page []) })
    (h1 : s.env (s.count + 1) (subscribeCreateCall (strTrim input.email)
        (input.name.getD "") (input.attribs.getD []) listId
        (opts1.preconfirm.getD true)
        (if strTruthy opts1.status then opts1.status else none)) =
      { success := true, code := 200, message := "OK",
        data := some (.sub sub) })
    (hconf : ((sub.lists.getD []).find? (fun l => l.id = listId)).bind
        (fun l => l.subscription_status) = some "confirmed")
    (hblock : sub.status ≠ "blocklisted")
    (h2 : s.env (s.count + 2) (emailLookupCall (strTrim input.email)) =
      { success := true, code := 200, message := "OK",
        data := some (.page [sub]) }) :
    subscribe listId input opts1 s =
      (subscribeOkResult sub true false true 200 "Successfully subscribed",
       { s with
          count := s.count + 2,
          trace := s.trace ++
            [emailLookupCall (strTrim input.email),
             subscribeCreateCall (strTrim input.email) (input.name.getD "")
               (input.attribs.getD []) listId (opts1.preconfirm.getD true)
               (if strTruthy opts1.status then opts1.status else none)] }) ∧
    subscribe listId input opts2
      { s with
         count := s.count + 2,
         trace := s.trace ++
           [emailLookupCall (strTrim input.email),
            subscribeCreateCall (strTrim input.email) (input.name.getD "")
              (input.attribs.getD []) listId (opts1.preconfirm.getD true)
              (if strTruthy opts1.status then opts1.status else none)] } =
      (subscribeOkResult sub false true false 200 "Already subscribed",
       { s with
          count := s.count + 3,
          trace := (s.trace ++
            [emailLookupCall (strTrim input.email),
             subscribeCreateCall (strTrim input.email) (input.name.getD "")
               (input.attribs.getD []) listId (opts1.preconfirm.getD true)
               (if strTruthy opts1.status then opts1.status else none)]) ++
            [emailLookupCall (strTrim input.email)] }) ∧
    RemoteCall.isMutation (emailLookupCall (strTrim input.email)) = false := by
  refine ⟨?_, ?_, rfl⟩
  · unfold subscribe subscribe.subscribeCreate findSubscriber
      findSubscriber.findSubscriberDecode callRemote emailLookupCall
      subscribeCreateCall subscribeOkResult
    rw [if_neg hemail]
    unfold emailLookupCall at h0
    unfold subscribeCreateCall at h1
    simp only [h0, h1]
    simp only [Resp.pageData, Resp.subData]
    simp only [LMCResp.err, LMCResp.ok, if_true]
    norm_num
  · unfold subscribe findSubscriber findSubscriber.findSubscriberDecode
      callRemote emailLookupCall subscribeOkResult
    rw [if_neg hemail]
    unfold emailLookupCall at h2
    simp only [h2]
    simp only [Resp.pageData]
    simp only [LMCResp.ok, LMCResp.err, if_true]
    rw [if_neg hblock]
    simp only [hconf]
    norm_num
    intro hcontra
    exact absurd (hcontra (by decide)) (by decide)

/-- The subscriber created in the C5 witness scenario, confirmed on list 4. -/
def sub5 : Subscriber :=
  { id := 11, uuid := "", email := "c@x", name := "", attribs := [],
    status := "enabled",
    lists := some [{ id := 4, subscription_status := some "confirmed",
                     name := none }] }

/-- The C5 witness oracle: empty lookup, successful create, then a lookup
that sees the created subscriber. -/
def env5 : Nat → RemoteCall → Resp := fun i _ =>
  match i with
  | 0 => { success := true, code := 200, message := "OK",
           data := some (.page []) }
  | 1 => { success := true, code := 200, message := "OK",
           data := some (.sub sub5) }
  | 2 => { success := true, code := 200, message := "OK",
           data := some (.page [sub5]) }
  | _ => failResp

/-- Witness for C5 at a concrete double-subscribe run. -/
theorem subscribe_twice_idempotent_witness :
    (subscribe 4 { email := "c@x", name := none, attribs := none }
      { preconfirm := none, status := none } (mkSt env5)).1 =
      subscribeOkResult sub5 true false true 200 "Successfully subscribed" ∧
    (subscribe 4 { email := "c@x", name := none, attribs := none }
      { preconfirm := none, status := none }
      { env := env5, count := 2,
        trace := [emailLookupCall "c@x",
          subscribeCreateCall "c@x" "" [] 4 true none],
        listCacheSeconds := 0, listCache := none, now := 0 }).1 =
      subscribeOkResult sub5 false true false 200 "Already subscribed" := by
  have h := subscribe_twice_idempotent 4
    { email := "c@x", name := none, attribs := none }
    { preconfirm := none, status := none }
    { preconfirm := none, status := none }
    (mkSt env5) sub5 (by decide) (by rfl) (by rfl) (by rfl) (by decide)
    (by rfl)
  exact ⟨congrArg Prod.fst h.1, congrArg Prod.fst h.2.1⟩

/-- C6: in the current `addSubscribersToList`, a failed email-rename update
aborts the whole batch immediately — the loop returns that update error
without touching the remaining entries, and the operation returns it as its
result — whereas a failed create/attach for an entry is appended to
`errors` and the loop continues with the remaining entries. -/
theorem bulk_rename_failure_fatal_create_failure_accumulated :
    (∀ (listId : Int) (attach : Bool) (entry : BulkEntry)
       (rest : List BulkEntry) (st : BulkLoopState) (s : ClientSt)
       (sub : Subscriber),
       lookupExisting st.maps entry = some sub →
       (strTruthy entry.uid &&
         strToLower sub.email != strToLower entry.email) = true →
       (s.env s.count (.putSubscriber sub.id entry.email
         (entry.name.getD sub.name) (entryAttribsOf entry) none)).success
           = false →
       (s.env s.count (.putSubscriber sub.id entry.email
         (entry.name.getD sub.name) (entryAttribsOf entry) none)).message
           ≠ "" →
       processBulkEntries listId attach (entry :: rest) st s =
         (.error (LMCResp.err
           (s.env s.count (.putSubscriber sub.id entry.email
             (entry.name.getD sub.name) (entryAttribsOf entry)
             none)).message
           (some (s.env s.count (.putSubscriber sub.id entry.email
             (entry.name.getD sub.name) (entryAttribsOf entry)
             none)).code) none),
          { s with count := s.count + 1,
                   trace := s.trace ++
                     [.putSubscriber sub.id entry.email
                       (entry.name.getD sub.name) (entryAttribsOf entry)
                       none] })) ∧
    (∀ (listId : Int) (entries : List BulkEntry) (attach : Option Bool)
       (s : ClientSt) (deduped : List (String × BulkEntry))
       (maps : LookupMaps) (s1 : ClientSt) (r : LMCResp BulkAddResult)
       (s2 : ClientSt),
       entries ≠ [] →
       bulkPrepare entries s = (deduped, maps, s1) →
       processBulkEntries listId (attach.getD true)
         (deduped.map (fun p => p.2)) (initBulkLoopState maps) s1 =
           (.error r, s2) →
       addSubscribersToList listId entries attach s = (r, s2)) ∧
    (∀ (listId : Int) (entry : BulkEntry) (rest : List BulkEntry)
       (st : BulkLoopState) (s : ClientSt)
       (createRes : LMCResp SubscribeResult) (s2 : ClientSt),
       lookupExisting st.maps entry = none →
       subscribe listId
         { email := entry.email, name := some (entry.name.getD ""),
           attribs := some (entryAttribsOf entry) }
         { preconfirm := some true, status := some "enabled" } s =
           (createRes, s2) →
       createRes.success = false →
       processBulkEntries listId true (entry :: rest) st s =
         processBulkEntries listId true rest
           { st with errors := st.errors ++
               [{ email := entry.email, message := createRes.message,
                  code := createRes.code }] } s2) := by
  refine ⟨?_, ?_, ?_⟩
  · intro listId attach entry rest st s sub hlook hrename hfail hmsg
    have hstep : processBulkEntry listId attach entry st s =
        (.error (LMCResp.err
          (s.env s.count (.putSubscriber sub.id entry.email
            (entry.name.getD sub.name) (entryAttribsOf entry)
            none)).message
          (some (s.env s.count (.putSubscriber sub.id entry.email
            (entry.name.getD sub.name) (entryAttribsOf entry)
            none)).code) none),
         { s with count := s.count + 1,
                  trace := s.trace ++
                    [.putSubscriber sub.id entry.email
                      (entry.name.getD sub.name) (entryAttribsOf entry)
                      none] }) := by
      unfold processBulkEntry
      simp only [hlook]
      simp only [hrename, if_true]
      unfold callRemote
      simp only [toSubResp]
      have hmsgb : ((s.env s.count (.putSubscriber sub.id entry.email
          (entry.name.getD sub.name) (entryAttribsOf entry)
          none)).message != "") = true := by
        simpa using hmsg
      simp only [hfail, hmsgb, Bool.false_eq_true, if_false, if_true]
      cases hsd : (s.env s.count (.putSubscriber sub.id entry.email
          (entry.name.getD sub.name) (entryAttribsOf entry)
          none)).subData <;> simp [hsd]
    unfold processBulkEntries
    simp only [hstep]
  · intro listId entries attach s deduped maps s1 r s2 hne hprep hrun
    unfold addSubscribersToList
    rw [if_neg (by simpa [List.length_eq_zero] using hne)]
    simp only [hprep, hrun]
  · intro listId entry rest st s createRes s2 hlook hsub hfail
    have hstep : processBulkEntry listId true entry st s =
        (.ok { st with errors := st.errors ++
            [{ email := entry.email, message := createRes.message,
               code := createRes.code }] }, s2) := by
      unfold processBulkEntry
      simp only [hlook, if_true]
      simp only [hsub]
      cases hd : createRes.data with
      | none => simp
      | some d => simp [hfail]
    unfold processBulkEntries
    simp only [hstep]
    cases rest <;> rfl

/-- The C6 witness subscriber, matched by uid with a different email. -/
def subR : Subscriber :=
  { id := 13, uuid := "", email := "old@x", name := "",
    attribs := [("uid", JsonValue.str "u1")], status := "enabled",
    lists := none }

/-- The C6 witness oracle: every call fails with "boom". -/
def envBoom : Nat → RemoteCall → Resp := fun _ _ =>
  { success := false, code := 500, message := "boom", data := none }

/-- Witness for the fatal rename: the failed email-rename update aborts the
batch with the update's own error. -/
theorem bulk_rename_failure_fatal_witness :
    (processBulkEntries 1 true
      [{ email := "new@x", name := none, uid := some "u1",
         attribs := none }]
      (initBulkLoopState { byUid := [("u1", subR)], byEmail := [] })
      (mkSt envBoom)).1 =
      .error (LMCResp.err "boom" (some 500) none) := by
  have h := bulk_rename_failure_fatal_create_failure_accumulated.1 1 true
    { email := "new@x", name := none, uid := some "u1", attribs := none }
    [] (initBulkLoopState { byUid := [("u1", subR)], byEmail := [] })
    (mkSt envBoom) subR (by rfl) (by decide) (by rfl) (by decide)
  rw [h]
  rfl

/-- The three bulk entries of the C3 concrete scenario. -/
def entries3 : List BulkEntry :=
  [{ email := "e1@x", name := none, uid := none, attribs := none },
   { email := "e2@x", name := none, uid := none, attribs := none },
   { email := "e3@x", name := none, uid := none, attribs := none }]

/-- The created subscribers of the C3 scenario. -/
def subE1 : Subscriber :=
  { id := 21, uuid := "", email := "e1@x", name := "", attribs := [],
    status := "enabled",
    lists := some [{ id := 4, subscription_status := some "confirmed",
                     name := none }] }

/-- Second created subscriber of the C3 scenario. -/
def subE3 : Subscriber :=
  { id := 23, uuid := "", email := "e3@x", name := "", attribs := [],
    status := "enabled",
    lists := some [{ id := 4, subscription_status := some "confirmed",
                     name := none }] }

/-- The C3 oracle: batch lookup empty, creates succeed for e1 and e3, the
create for e2 fails. -/
def env3 : Nat → RemoteCall → Resp := fun i _ =>
  match i with
  | 0 => { success := true, code := 200, message := "OK",
           data := some (.page []) }
  | 1 => { success := true, code := 200, message := "OK",
           data := some (.page []) }
  | 2 => { success := true, code := 200, message := "OK",
           data := some (.sub subE1) }
  | 3 => { success := true, code := 200, message := "OK",
           data := some (.page []) }
  | 4 => { success := false, code := 500, message := "create failed",
           data := none }
  | 5 => { success := true, code := 200, message := "OK",
           data := some (.page []) }
  | 6 => { success := true, code := 200, message := "OK",
           data := some (.sub subE3) }
  | _ => failResp

/-- C3: per-entry failures make the whole bulk add report `success=false`
with code 207 when 0 < errors < deduped entries (the partial sets still
returned as data), code 500 when every deduped entry failed, and
`success=true` when no entry failed; and the concrete three-entry run with
exactly one failed creation yields success=false, code 207, one error, and
two subscribers across `created`/`added`. -/
theorem bulk_partial_failure_reporting :
    (∀ (n : Nat) (st : BulkLoopState),
       0 < st.errors.length → st.errors.length < n →
       finalizeBulk n st =
         LMCResp.err "Failed to add some subscribers" (some 207)
           (some { created := st.created, added := st.added,
                   skippedBlocked := st.skippedBlocked,
                   skippedUnsubscribed := st.skippedUnsubscribed,
                   memberships := st.memberships,
                   errors := st.errors })) ∧
    (∀ (n : Nat) (st : BulkLoopState),
       st.errors.length = n → 0 < n →
       finalizeBulk n st =
         LMCResp.err "Failed to add some subscribers" (some 500)
           (some { created := st.created, added := st.added,
                   skippedBlocked := st.skippedBlocked,
                   skippedUnsubscribed := st.skippedUnsubscribed,
                   memberships := st.memberships,
                   errors := st.errors })) ∧
    (∀ (n : Nat) (st : BulkLoopState),
       st.errors.length = 0 → (finalizeBulk n st).success = true) ∧
    (∀ (listId : Int) (entries : List BulkEntry) (attach : Option Bool)
       (s : ClientSt) (deduped : List (String × BulkEntry))
       (maps : LookupMaps) (s1 : ClientSt) (st : BulkLoopState)
       (s2 : ClientSt),
       entries ≠ [] →
       bulkPrepare entries s = (deduped, maps, s1) →
       processBulkEntries listId (attach.getD true)
         (deduped.map (fun p => p.2)) (initBulkLoopState maps) s1 =
           (.ok st, s2) →
       addSubscribersToList listId entries attach s =
         (finalizeBulk deduped.length st,
          flushBulkWrites listId (attach.getD true) st s2)) ∧
    ((addSubscribersToList 4 entries3 none (mkSt env3)).1.success = false ∧
     (addSubscribersToList 4 entries3 none (mkSt env3)).1.code = 207 ∧
     (addSubscribersToList 4 entries3 none (mkSt env3)).1.data.map
       (fun d => d.errors.length) = some 1 ∧
     (addSubscribersToList 4 entries3 none (mkSt env3)).1.data.map
       (fun d => d.created.length + d.added.length) = some 2) := by
  refine ⟨?_, ?_, ?_, ?_, ?_, ?_, ?_, ?_⟩
  · intro n st h1 h2
    unfold finalizeBulk
    rw [if_pos h1]
    rw [if_neg (by omega : ¬st.errors.length = n)]
  · intro n st h1 h2
    unfold finalizeBulk
    rw [if_pos (by omega : 0 < st.errors.length)]
    rw [if_pos h1]
  · intro n st h1
    unfold finalizeBulk
    rw [if_neg (by omega : ¬0 < st.errors.length)]
    rfl
  · intro listId entries attach s deduped maps s1 st s2 hne hprep hrun
    unfold addSubscribersToList
    rw [if_neg (by simpa [List.length_eq_zero] using hne)]
    simp only [hprep, hrun]
  · rfl
  · rfl
  · rfl
  · rfl

/-- Witness for the 207 aggregation rule at a concrete loop state with one
error out of three deduped entries. -/
theorem bulk_partial_failure_reporting_witness :
    finalizeBulk 3
      { created := [], added := [], skippedBlocked := [],
        skippedUnsubscribed := [], addIds := [], resubscribeIds := [],
        memberships := [],
        errors := [{ email := "x@x", message := "m", code := 500 }],
        maps := { byUid := [], byEmail := [] } } =
      LMCResp.err "Failed to add some subscribers" (some 207)
        (some { created := [], added := [], skippedBlocked := [],
                skippedUnsubscribed := [], memberships := [],
                errors := [{ email := "x@x", message := "m",
                             code := 500 }] }) :=
  bulk_partial_failure_reporting.1 3
    { created := [], added := [], skippedBlocked := [],
      skippedUnsubscribed := [], addIds := [], resubscribeIds := [],
      memberships := [],
      errors := [{ email := "x@x", message := "m", code := 500 }],
      maps := { byUid := [], byEmail := [] } }
    (by decide) (by decide)

/-- `status === undefined || status !== "unsubscribed"`: the condition under
which a membership entry counts as currently subscribed. -/
def subOk (l : Subscription) : Bool :=
  match l.subscription_status with
  | none => true
  | some st => st != "unsubscribed"

theorem membershipSnapshot_fst (lists : List Subscription) :
    (membershipSnapshot lists).1 = lists.map (fun l => l.id) := by
  have gen : ∀ (ls : List Subscription) (acc : List Int × List Int),
      (ls.foldl
        (fun acc l =>
          (acc.1 ++ [l.id],
            match l.subscription_status with
            | none => setAdd acc.2 l.id
            | some st =>
              if st != "unsubscribed" then setAdd acc.2 l.id
              else acc.2)) acc).1 = acc.1 ++ ls.map (fun l => l.id) := by
    intro ls
    induction ls with
    | nil => intro acc; simp
    | cons l ls ih =>
      intro acc
      simp only [List.foldl_cons, List.map_cons]
      rw [ih]
      simp
  exact gen lists ([], [])

theorem membershipSnapshot_snd_mem (lists : List Subscription) (i : Int) :
    i ∈ (membershipSnapshot lists).2 ↔
      ∃ l ∈ lists, l.id = i ∧ subOk l = true := by
  have gen : ∀ (ls : List Subscription) (acc : List Int × List Int),
      i ∈ (ls.foldl
        (fun acc l =>
          (acc.1 ++ [l.id],
            match l.subscription_status with
            | none => setAdd acc.2 l.id
            | some st =>
              if st != "unsubscribed" then setAdd acc.2 l.id
              else acc.2)) acc).2 ↔
        i ∈ acc.2 ∨ ∃ l ∈ ls, l.id = i ∧ subOk l = true := by
    intro ls
    induction ls with
    | nil => intro acc; simp
    | cons l ls ih =>
      intro acc
      simp only [List.foldl_cons]
      rw [ih]
      have hstep :
          (match l.subscription_status with
           | none => setAdd acc.2 l.id
           | some st =>
             if st != "unsubscribed" then setAdd acc.2 l.id
             else acc.2) =
            (if subOk l then setAdd acc.2 l.id else acc.2) := by
        unfold subOk
        cases l.subscription_status with
        | none => simp
        | some st => by_cases h : (st != "unsubscribed") = true <;> simp [h]
      rw [hstep]
      by_cases h : subOk l = true
      · rw [if_pos h]
        rw [mem_setAdd]
        constructor
        · rintro ((ha | rfl) | hex)
          · exact Or.inl ha
          · exact Or.inr ⟨l, List.mem_cons_self l ls, rfl, h⟩
          · rcases hex with ⟨l2, hl2, hid, hok⟩
            exact Or.inr ⟨l2, List.mem_cons_of_mem l hl2, hid, hok⟩
        · rintro (ha | ⟨l2, hl2, hid, hok⟩)
          · exact Or.inl (Or.inl ha)
          · rcases List.mem_cons.mp hl2 with rfl | hl3
            · exact Or.inl (Or.inr hid.symm)
            · exact Or.inr ⟨l2, hl3, hid, hok⟩
      · rw [if_neg h]
        constructor
        · rintro (ha | ⟨l2, hl2, hid, hok⟩)
          · exact Or.inl ha
          · exact Or.inr ⟨l2, List.mem_cons_of_mem l hl2, hid, hok⟩
        · rintro (ha | ⟨l2, hl2, hid, hok⟩)
          · exact Or.inl ha
          · rcases List.mem_cons.mp hl2 with rfl | hl3
            · exact absurd hok h
            · exact Or.inr ⟨l2, hl3, hid, hok⟩
  have := gen lists ([], [])
  simpa [membershipSnapshot] using this

/-- With the list cache disabled (the repository default), `getListNameMap`
only reads names off the subscriber's own lists and issues no call. -/
theorem getListNameMap_disabled (ls : Option (List Subscription))
    (s : ClientSt) (h : s.listCacheSeconds = 0) :
    getListNameMap ls s = ((ls.getD []).foldl tryAddName [], s) := by
  unfold getListNameMap
  rw [if_pos h]

/-- `(ids.map some).reduceOption = ids`. -/
theorem reduceOption_map_some (ids : List Int) :
    (ids.map some).reduceOption = ids := by
  induction ids with
  | nil => rfl
  | cons x xs ih => simp [List.reduceOption_cons_of_some, ih]

/-- The fields of the client state preserved by `findSubscriber`, and its
trace/count bookkeeping: at most one non-mutating call. -/
theorem findSubscriber_fields (i : Identifier) (s : ClientSt) :
    (findSubscriber i s).2.env = s.env ∧
    (findSubscriber i s).2.listCacheSeconds = s.listCacheSeconds ∧
    (findSubscriber i s).2.listCache = s.listCache ∧
    (findSubscriber i s).2.now = s.now ∧
    ∃ t, (findSubscriber i s).2.trace = s.trace ++ t ∧
      t.filter RemoteCall.isMutation = [] ∧
      (findSubscriber i s).2.count = s.count + t.length := by
  rw [findSubscriber_snd]
  rcases i with ⟨iid, iuuid, iemail⟩
  cases iid with
  | some v =>
    exact ⟨rfl, rfl, rfl, rfl, [.getSubscriberById v], rfl, rfl, rfl⟩
  | none =>
    cases iuuid with
    | some u =>
      exact ⟨rfl, rfl, rfl, rfl,
        [.querySubscribers 1 (buildEqualityQuery "uuid" u)], rfl, rfl, rfl⟩
    | none =>
      cases iemail with
      | some e =>
        exact ⟨rfl, rfl, rfl, rfl,
          [.querySubscribers 1 (buildEqualityQuery "email" e)], rfl, rfl,
          rfl⟩
      | none => exact ⟨rfl, rfl, rfl, rfl, [], by simp, rfl, rfl⟩

/-- The C8 scenario subscriber: unsubscribed from list 1, confirmed on 2. -/
def subAB : Subscriber :=
  { id := 31, uuid := "", email := "ab@x", name := "", attribs := [],
    status := "enabled",
    lists := some
      [{ id := 1, subscription_status := some "unsubscribed", name := none },
       { id := 2, subscription_status := some "confirmed", name := none }] }

/-- The C8 scenario oracle: the search finds `subAB`; everything succeeds. -/
def env8 : Nat → RemoteCall → Resp := fun i _ =>
  match i with
  | 0 => { success := true, code := 200, message := "OK",
           data := some (.page [subAB]) }
  | _ => { success := true, code := 200, message := "OK", data := none }

theorem contains_iff_mem {α : Type} [DecidableEq α] (l : List α)
    (a : α) : l.contains a = true ↔ a ∈ l := by
  simp [List.contains]

/-- C8: for a valid (duplicate-free) request, `setSubscriptions` issues at
most one add call and at most one remove call: the add's targets are exactly
the requested ids not currently subscribed (non-unsubscribed membership),
the remove's targets exactly the currently subscribed ids outside the
request — and only when `removeOthers` is set, else nothing is removed
(first conjunct, stated on the trace).  The middle conjuncts characterize
the delta sets.  The last conjunct is the concrete scenario: memberships
`{1: unsubscribed, 2: confirmed}` and request `[1,2,3]` with `removeOthers`
defaulted yield one mutating call adding exactly `[1,3]`, and list 2 is
reported "Unchanged". -/
theorem setSubscriptions_delta :
    (∀ (identifier : Identifier) (ids : List Int)
       (removeOthers : Option Bool) (s : ClientSt) (sub : Subscriber)
       (fr : LMCResp Subscriber) (s1 : ClientSt),
       ids.Nodup →
       findSubscriber identifier s = (fr, s1) →
       fr.success = true → fr.data = some sub →
       s.listCacheSeconds = 0 →
       (∀ i c, (s.env i c).success = true) →
       (setSubscriptions identifier (ids.map some) removeOthers s).2.trace =
         s1.trace ++
           ((if 0 < (listsToAddOf sub ids).length then
               [RemoteCall.putLists [sub.id] "add"
                 (some (listsToAddOf sub ids))]
             else []) ++
            (if 0 < (listsToRemoveOf sub ids
                (removeOthers.getD false)).length then
               [RemoteCall.putLists [sub.id] "unsubscribe"
                 (some (listsToRemoveOf sub ids (removeOthers.getD false)))]
             else [])) ∧
       (∀ c ∈ s1.trace, c ∈ s.trace ∨ c.isMutation = false)) ∧
    (∀ (sub : Subscriber) (ids : List Int) (i : Int),
       i ∈ listsToAddOf sub ids ↔
         i ∈ ids ∧
           ¬∃ l ∈ sub.lists.getD [], l.id = i ∧ subOk l = true) ∧
    (∀ (sub : Subscriber) (ids : List Int) (i : Int),
       i ∈ listsToRemoveOf sub ids true ↔
         (∃ l ∈ sub.lists.getD [], l.id = i) ∧
           (∃ l ∈ sub.lists.getD [], l.id = i ∧ subOk l = true) ∧
           i ∉ ids) ∧
    (∀ (sub : Subscriber) (ids : List Int),
       listsToRemoveOf sub ids false = []) ∧
    ((setSubscriptions { id := none, uuid := none, email := some "ab@x" }
        [some 1, some 2, some 3] none (mkSt env8)).2.trace =
      [RemoteCall.querySubscribers 1 (buildEqualityQuery "email" "ab@x"),
       RemoteCall.putLists [31] "add" (some [1, 3])] ∧
     (setSubscriptions { id := none, uuid := none, email := some "ab@x" }
        [some 1, some 2, some 3] none (mkSt env8)).1.data.map
       (fun d => d.lists.map (fun p => (p.listId, p.status))) =
       some [(1, "Subscribed"), (2, "Unchanged"), (3, "Subscribed")]) := by
  refine ⟨?_, ?_, ?_, ?_, rfl, rfl⟩
  · intro identifier ids removeOthers s sub fr s1 hnodup heq hsucc hdata
      hzero henvAll
    have hs1 : (findSubscriber identifier s).2 = s1 := by rw [heq]
    obtain ⟨henv1, hcache1, _, _, t0, htrace0, hmut0, _⟩ :=
      findSubscriber_fields identifier s
    rw [hs1] at henv1 hcache1 htrace0
    have hnorm : ((setOfList (ids.map some)).filter
        (fun x => x.isSome)).reduceOption = ids := by
      have h1 : setOfList (ids.map some) = ids.map some :=
        setOfList_eq_self (hnodup.map (fun a b => by simp))
      have h2 : (ids.map some).filter (fun x => x.isSome) = ids.map some :=
        List.filter_eq_self.mpr (by
          intro x hx
          rcases List.mem_map.mp hx with ⟨y, _, rfl⟩
          rfl)
      rw [h1, h2, reduceOption_map_some]
    have hmutside : ∀ c ∈ s1.trace, c ∈ s.trace ∨ c.isMutation = false := by
      intro c hc
      rw [htrace0] at hc
      rcases List.mem_append.mp hc with hl | hr
      · exact Or.inl hl
      · right
        have := List.filter_eq_nil_iff.mp hmut0 c hr
        revert this
        cases c.isMutation <;> simp
    refine ⟨?_, hmutside⟩
    have hzero1 : s1.listCacheSeconds = 0 := by rw [hcache1]; exact hzero
    have hsucc1 : ∀ i c, (s1.env i c).success = true := by
      intro i c
      rw [henv1]
      exact henvAll i c
    unfold setSubscriptions
    rw [hnorm]
    rw [if_neg (by simp)]
    simp only [heq]
    simp only [hdata, hsucc, Bool.not_true, Bool.false_eq_true, if_false]
    rw [getListNameMap_disabled sub.lists s1 hzero1]
    simp only []
    by_cases hadd : 0 < (listsToAddOf sub ids).length
    · rw [if_pos hadd]
      unfold callRemote
      simp only [hsucc1, Bool.not_true, Bool.false_eq_true, if_false]
      unfold setSubscriptions.setSubscriptionsAfterAdd
      by_cases hrem : 0 <
          (listsToRemoveOf sub ids (removeOthers.getD false)).length
      · rw [if_pos hrem]
        unfold callRemote
        simp only [hsucc1, Bool.not_true, Bool.false_eq_true, if_false]
        simp [hadd, hrem, List.append_assoc]
      · rw [if_neg hrem]
        simp [hadd, hrem, List.append_assoc]
    · rw [if_neg hadd]
      unfold setSubscriptions.setSubscriptionsAfterAdd
      by_cases hrem : 0 <
          (listsToRemoveOf sub ids (removeOthers.getD false)).length
      · rw [if_pos hrem]
        unfold callRemote
        simp only [hsucc1, Bool.not_true, Bool.false_eq_true, if_false]
        simp [hadd, hrem, List.append_assoc]
      · rw [if_neg hrem]
        simp [hadd, hrem, List.append_assoc]
  · intro sub ids i
    unfold listsToAddOf
    rw [List.mem_filter]
    constructor
    · rintro ⟨hin, hfil⟩
      refine ⟨hin, fun hex => ?_⟩
      have hm : i ∈ (membershipSnapshot (sub.lists.getD [])).2 :=
        (membershipSnapshot_snd_mem _ i).mpr hex
      have hc : ((membershipSnapshot (sub.lists.getD [])).2.contains i)
          = true := (contains_iff_mem _ i).mpr hm
      rw [hc] at hfil
      simp at hfil
    · rintro ⟨hin, hnex⟩
      refine ⟨hin, ?_⟩
      have hm : i ∉ (membershipSnapshot (sub.lists.getD [])).2 :=
        fun hmem => hnex ((membershipSnapshot_snd_mem _ i).mp hmem)
      have hc : ((membershipSnapshot (sub.lists.getD [])).2.contains i)
          = false := by
        cases hcv : ((membershipSnapshot (sub.lists.getD [])).2.contains i)
        · rfl
        · exact absurd ((contains_iff_mem _ i).mp hcv) hm
      rw [hc]
      rfl
  · intro sub ids i
    unfold listsToRemoveOf
    rw [if_pos rfl]
    rw [List.mem_filter, membershipSnapshot_fst]
    constructor
    · rintro ⟨hin, hfil⟩
      rcases List.mem_map.mp hin with ⟨l, hl, hid⟩
      rcases Bool.and_eq_true_iff.mp hfil with ⟨h1, h2⟩
      refine ⟨⟨l, hl, hid⟩, ?_, ?_⟩
      · exact (membershipSnapshot_snd_mem _ i).mp
          ((contains_iff_mem _ i).mp h1)
      · intro hini
        have : ids.contains i = true := (contains_iff_mem _ i).mpr hini
        rw [this] at h2
        simp at h2
    · rintro ⟨⟨l, hl, hid⟩, hsubk, hnin⟩
      refine ⟨List.mem_map.mpr ⟨l, hl, hid⟩, ?_⟩
      have h1 : ((membershipSnapshot (sub.lists.getD [])).2.contains i)
          = true := (contains_iff_mem _ i).mpr
            ((membershipSnapshot_snd_mem _ i).mpr hsubk)
      have h2 : ids.contains i = false := by
        cases hcv : ids.contains i
        · rfl
        · exact absurd ((contains_iff_mem _ i).mp hcv) hnin
      rw [h1, h2]
      rfl
  · intro sub ids
    unfold listsToRemoveOf
    rfl

/-- Witness for the setSubscriptions delta at the concrete scenario. -/
theorem setSubscriptions_delta_witness :
    (setSubscriptions { id := none, uuid := none, email := some "ab@x" }
      ([1, 2, 3].map some) none (mkSt env8)).2.trace =
      [RemoteCall.querySubscribers 1 (buildEqualityQuery "email" "ab@x")] ++
        ((if 0 < (listsToAddOf subAB [1, 2, 3]).length then
            [RemoteCall.putLists [subAB.id] "add"
              (some (listsToAddOf subAB [1, 2, 3]))]
          else []) ++
         (if 0 < (listsToRemoveOf subAB [1, 2, 3]
             ((none : Option Bool).getD false)).length then
            [RemoteCall.putLists [subAB.id] "unsubscribe"
              (some (listsToRemoveOf subAB [1, 2, 3]
                ((none : Option Bool).getD false)))]
          else [])) :=
  (setSubscriptions_delta.1
    { id := none, uuid := none, email := some "ab@x" } [1, 2, 3] none
    (mkSt env8) subAB
    { success := true, code := 200, message := "OK", data := some subAB }
    { env := env8, count := 1,
      trace := [RemoteCall.querySubscribers 1
        (buildEqualityQuery "email" "ab@x")],
      listCacheSeconds := 0, listCache := none, now := 0 }
    (by decide) (by rfl) (by rfl) (by rfl) (by rfl)
    (by intro i c; cases i <;> rfl)).1

/-- C9: per-list unsubscribe outcome messages come from the pre-mutation
snapshot — "Subscribed" for a membership confirmed before the call,
"Unsubscribed" for one already unsubscribed, or absent while the list name
is known; "Unknown List" when the id is in neither the memberships nor the
name map — and unknown ids are not rejected: the requested ids (deduplicated)
are passed through as the unsubscribe call's `target_list_ids`, with each
reported message computed by `describeListStatus` over the snapshot taken
before the call. -/
theorem unsubscribe_pre_snapshot_messages :
    (∀ (i : Int) (memberSet subSet : List Int)
       (names : List (Int × String)),
       (mapGet names i).isSome = false → i ∉ memberSet →
       describeListStatus i memberSet subSet names = "Unknown List") ∧
    (∀ (lists : List Subscription) (names : List (Int × String)) (i : Int),
       (∃ l ∈ lists, l.id = i ∧ l.subscription_status = some "confirmed") →
       describeListStatus i (setOfList (membershipSnapshot lists).1)
         (membershipSnapshot lists).2 names = "Subscribed") ∧
    (∀ (lists : List Subscription) (names : List (Int × String)) (i : Int),
       (∃ l ∈ lists, l.id = i) →
       (∀ l ∈ lists, l.id = i → subOk l = false) →
       describeListStatus i (setOfList (membershipSnapshot lists).1)
         (membershipSnapshot lists).2 names = "Unsubscribed") ∧
    (∀ (lists : List Subscription) (names : List (Int × String)) (i : Int),
       (∀ l ∈ lists, l.id ≠ i) → (mapGet names i).isSome = true →
       describeListStatus i (setOfList (membershipSnapshot lists).1)
         (membershipSnapshot lists).2 names = "Unsubscribed") ∧
    (∀ (identifier : Identifier) (s : ClientSt) (fr : LMCResp Subscriber)
       (s1 : ClientSt) (sub : Subscriber) (la : List NumV),
       findSubscriber identifier s = (fr, s1) →
       fr.success = true → fr.data = some sub →
       s.listCacheSeconds = 0 →
       la.all (fun x => x.isSome) = true → setOfList la ≠ [] →
       (unsubscribe identifier (some la) s).2.trace =
         s1.trace ++
           [.putLists [sub.id] "unsubscribe"
             (some ((setOfList la).reduceOption))] ∧
       (unsubscribe identifier (some la) s).1.data =
         some { subscriberId := sub.id,
                lists := ((setOfList la).reduceOption).map (fun listId =>
                  { listId := listId
                    listName := mapGet
                      ((sub.lists.getD []).foldl tryAddName []) listId
                    statusChanged :=
                      (membershipSnapshot (sub.lists.getD [])).1.length > 0
                        && (membershipSnapshot
                          (sub.lists.getD [])).2.contains listId
                    message := describeListStatus listId
                      (setOfList (membershipSnapshot (sub.lists.getD [])).1)
                      (membershipSnapshot (sub.lists.getD [])).2
                      ((sub.lists.getD []).foldl tryAddName []) })}) := by
  refine ⟨?_, ?_, ?_, ?_, ?_⟩
  · intro i memberSet subSet names hnames hmem
    unfold describeListStatus
    rw [if_pos]
    rw [hnames]
    have hc : memberSet.contains i = false := by
      cases hcv : memberSet.contains i
      · rfl
      · exact absurd ((contains_iff_mem _ i).mp hcv) hmem
    rw [hc]
    rfl
  · intro lists names i hex
    unfold describeListStatus
    have hmem : i ∈ (membershipSnapshot lists).2 := by
      rcases hex with ⟨l, hl, hid, hconf⟩
      exact (membershipSnapshot_snd_mem lists i).mpr
        ⟨l, hl, hid, by unfold subOk; rw [hconf]; rfl⟩
    have hmemb : i ∈ setOfList (membershipSnapshot lists).1 := by
      rcases hex with ⟨l, hl, hid, _⟩
      rw [mem_setOfList, membershipSnapshot_fst]
      exact List.mem_map.mpr ⟨l, hl, hid⟩
    rw [if_neg]
    · rw [if_pos ((contains_iff_mem _ i).mpr hmem)]
    · rw [(contains_iff_mem _ i).mpr hmemb]
      simp
  · intro lists names i hex hall
    unfold describeListStatus
    have hmemb : i ∈ setOfList (membershipSnapshot lists).1 := by
      rcases hex with ⟨l, hl, hid⟩
      rw [mem_setOfList, membershipSnapshot_fst]
      exact List.mem_map.mpr ⟨l, hl, hid⟩
    have hnot : i ∉ (membershipSnapshot lists).2 := by
      intro hmem
      rcases (membershipSnapshot_snd_mem lists i).mp hmem with
        ⟨l, hl, hid, hok⟩
      rw [hall l hl hid] at hok
      exact absurd hok (by simp)
    rw [if_neg]
    · have hc : (membershipSnapshot lists).2.contains i = false := by
        cases hcv : (membershipSnapshot lists).2.contains i
        · rfl
        · exact absurd ((contains_iff_mem _ i).mp hcv) hnot
      rw [hc]
      rfl
    · rw [(contains_iff_mem _ i).mpr hmemb]
      simp
  · intro lists names i hnone hnames
    unfold describeListStatus
    have hnotm : i ∉ setOfList (membershipSnapshot lists).1 := by
      rw [mem_setOfList, membershipSnapshot_fst]
      intro hmem
      rcases List.mem_map.mp hmem with ⟨l, hl, hid⟩
      exact hnone l hl hid
    have hnots : i ∉ (membershipSnapshot lists).2 := by
      intro hmem
      rcases (membershipSnapshot_snd_mem lists i).mp hmem with
        ⟨l, hl, hid, _⟩
      exact hnone l hl hid
    rw [if_neg]
    · have hc : (membershipSnapshot lists).2.contains i = false := by
        cases hcv : (membershipSnapshot lists).2.contains i
        · rfl
        · exact absurd ((contains_iff_mem _ i).mp hcv) hnots
      rw [hc]
      rfl
    · rw [hnames]
      simp
  · intro identifier s fr s1 sub la heq hsucc hdata hzero hall hne
    have hs1 : (findSubscriber identifier s).2 = s1 := by rw [heq]
    obtain ⟨henv1, hcache1, _, _, t0, htrace0, hmut0, _⟩ :=
      findSubscriber_fields identifier s
    rw [hs1] at henv1 hcache1 htrace0
    have hzero1 : s1.listCacheSeconds = 0 := by rw [hcache1]; exact hzero
    have hlen : 0 < ((setOfList la).reduceOption).length := by
      have hcv : ∀ x ∈ setOfList la, x.isSome := by
        intro x hx
        have := (mem_setOfList x la).mp hx
        exact List.all_eq_true.mp hall x this
      have heqlen : ((setOfList la).reduceOption).length =
          (setOfList la).length :=
        List.reduceOption_length_eq_iff.mpr hcv
      rw [heqlen]
      exact List.length_pos.mpr hne
    unfold unsubscribe
    simp only [heq]
    simp only [hdata, hsucc, Bool.not_true, Bool.false_eq_true, if_false]
    simp only [hall, Bool.not_true, Bool.false_eq_true, if_false]
    rw [if_neg (by
      intro hlz
      exact hne (List.length_eq_zero.mp hlz))]
    unfold unsubscribe.unsubscribeRun
    rw [getListNameMap_disabled sub.lists s1 hzero1]
    unfold callRemote
    simp only []
    rw [if_pos hlen]
    constructor
    · cases hres : (s1.env s1.count
          (.putLists [sub.id] "unsubscribe"
            (some ((setOfList la).reduceOption)))).success <;>
        simp [hres]
    · cases hres : (s1.env s1.count
          (.putLists [sub.id] "unsubscribe"
            (some ((setOfList la).reduceOption)))).success <;>
        simp [hres, LMCResp.err, LMCResp.ok, membershipSnapshot_fst,
          mem_setOfList]

/-- The C9 witness subscriber: confirmed on list 1 (named "News"). -/
def subU : Subscriber :=
  { id := 41, uuid := "", email := "u@x", name := "", attribs := [],
    status := "enabled",
    lists := some [{ id := 1, subscription_status := some "confirmed",
                     name := some "News" }] }

/-- The C9 witness oracle: the search finds `subU`; everything succeeds. -/
def env9 : Nat → RemoteCall → Resp := fun i _ =>
  match i with
  | 0 => { success := true, code := 200, message := "OK",
           data := some (.page [subU]) }
  | _ => { success := true, code := 200, message := "OK", data := none }

/-- Witness for C9: the unknown list id 99 is still included in the
unsubscribe call's `target_list_ids`. -/
theorem unsubscribe_pre_snapshot_messages_witness :
    (unsubscribe { id := none, uuid := none, email := some "u@x" }
      (some [some 1, some 99]) (mkSt env9)).2.trace =
      [RemoteCall.querySubscribers 1 (buildEqualityQuery "email" "u@x"),
       RemoteCall.putLists [41] "unsubscribe" (some [1, 99])] := by
  have h := unsubscribe_pre_snapshot_messages.2.2.2.2
    { id := none, uuid := none, email := some "u@x" } (mkSt env9)
    { success := true, code := 200, message := "OK", data := some subU }
    { env := env9, count := 1,
      trace := [RemoteCall.querySubscribers 1
        (buildEqualityQuery "email" "u@x")],
      listCacheSeconds := 0, listCache := none, now := 0 }
    subU [some 1, some 99]
    (by rfl) (by rfl) (by rfl) (by rfl) (by decide) (by decide)
  exact h.1
